import Mathlib

/-!
Verification of the LightDiffusion Newelle extension
(`src/lightdiffusion.py`) against its natural-language specification.

The embedding models Python values with an inductive `PyVal` (machine
floats are modelled by rationals), Newelle's `get_setting` by a function
`String → PyVal`, and the external world of `generate_image` (the
`requests.post` call, the base64 decoder / file system, the JSON library)
by explicit parameters or executable models.  `generate_image` itself is
translated statement by statement; Python exceptions are modelled with an
explicit `exn` outcome which the outer `try/except` of the source turns
into a printed message plus a loading-state reset.
-/

/-- Model of a Python value as it flows through the extension:
settings values, JSON payload entries and JSON response data.
Python `float` is modelled by `Rat`; `dict` by an insertion-ordered
association list with string keys (the only kind of dict the code uses). -/
inductive PyVal where
  | none : PyVal
  | bool : Bool → PyVal
  | int : Int → PyVal
  | float : Rat → PyVal
  | str : String → PyVal
  | list : List PyVal → PyVal
  | dict : List (String × PyVal) → PyVal

/-- Python truthiness (`bool(v)`): `None`/`False`/`0`/`0.0`/`""` and empty
containers are falsy. -/
def pyTruthy : PyVal → Bool
  | .none => false
  | .bool b => b
  | .int n => n != 0
  | .float q => q != 0
  | .str s => !s.isEmpty
  | .list l => !l.isEmpty
  | .dict d => !d.isEmpty

/-- Python `a or b`: returns `a` when truthy, else `b`. -/
def pyOr (v d : PyVal) : PyVal := if pyTruthy v then v else d

/-! ### Python string primitives (on `List Char`) -/

/-- Drop leading whitespace (model of the left half of `str.strip()`;
`Char.isWhitespace` models Python's notion of whitespace). -/
def wsDropL (l : List Char) : List Char := l.dropWhile Char.isWhitespace

/-- Model of Python `str.strip()` on char lists: first strip the right
end, then the left end. -/
def stripChars (l : List Char) : List Char :=
  wsDropL (l.rdropWhile Char.isWhitespace)

/-- Model of Python `str.strip()`. -/
def pyStrip (s : String) : String := ⟨stripChars s.data⟩

/-- Model of Python `str.rstrip("/")` (used on the base URL). -/
def rstripSlashes (s : String) : String :=
  ⟨(s.data.reverse.dropWhile (· = '/')).reverse⟩

/-- Model of Python `str.lower()` on char lists (ASCII case folding,
which covers the recognized tags). -/
def lowerChars (l : List Char) : List Char := l.map Char.toLower

/-- Nonempty all-digit run, as consumed by Python `int(str)`. -/
def decDigits : List Char → Option Nat
  | [] => Option.none
  | l => l.foldlM (fun acc c => if c.isDigit then some (acc * 10 + (c.toNat - 48)) else Option.none) 0

/-- Model of Python `int(str)`: optional surrounding whitespace, optional
sign, a nonempty digit run (digit-group underscores are not modelled;
no claim depends on them).  `Option.none` models a raised `ValueError`. -/
def pyIntOfStr (s : String) : Option Int :=
  match stripChars s.data with
  | '+' :: r => (decDigits r).map Int.ofNat
  | '-' :: r => (decDigits r).map (fun n => -(n : Int))
  | r => (decDigits r).map Int.ofNat

/-- Truncation of a rational toward zero, the behaviour of Python
`int(float)`. -/
def ratTrunc (q : Rat) : Int := if 0 ≤ q then q.floor else -((-q).floor)

/-- Model of Python `int(v)`: succeeds on bools, ints, floats and
well-formed numeric strings; `Option.none` models a raised
`TypeError`/`ValueError`. -/
def pyInt : PyVal → Option Int
  | .bool b => some (if b then 1 else 0)
  | .int n => some n
  | .float q => some (ratTrunc q)
  | .str s => pyIntOfStr s
  | _ => Option.none

/-- Decimal mantissa for `float(str)`: digits around an optional point,
at least one digit present. -/
def decMantissa (l : List Char) : Option Rat :=
  let intPart := l.takeWhile Char.isDigit
  let rest := l.dropWhile Char.isDigit
  match rest with
  | [] => if intPart.isEmpty then Option.none else (decDigits intPart).map (fun n => (n : Rat))
  | '.' :: fr =>
      if fr.all Char.isDigit && !(intPart.isEmpty && fr.isEmpty) then
        let i := (decDigits intPart).getD 0
        let f := (decDigits fr).getD 0
        some ((i : Rat) + (f : Rat) / ((10 : Rat) ^ fr.length))
      else Option.none
  | _ => Option.none

/-- Model of Python `float(str)` on finite decimal literals: optional
surrounding whitespace, optional sign, digits with an optional point and
an optional decimal exponent.  (`inf`/`nan` literals are not modelled;
no claim depends on them.) -/
def pyFloatOfStr (s : String) : Option Rat :=
  let expApply : Rat → List Char → Option Rat := fun q e =>
    match e with
    | '+' :: d => (decDigits d).map (fun n => q * (10 : Rat) ^ n)
    | '-' :: d => (decDigits d).map (fun n => q / (10 : Rat) ^ n)
    | d => (decDigits d).map (fun n => q * (10 : Rat) ^ n)
  let core : List Char → Option Rat := fun l =>
    match l.splitOn 'e' with
    | [m] => decMantissa m
    | [m, e] => (decMantissa m).bind (fun q => expApply q e)
    | _ => Option.none
  match stripChars s.data with
  | '+' :: r => core (lowerChars r)
  | '-' :: r => (core (lowerChars r)).map Neg.neg
  | r => core (lowerChars r)

/-- Model of Python `float(v)`. -/
def pyFloat : PyVal → Option Rat
  | .bool b => some (if b then 1 else 0)
  | .int n => some (n : Rat)
  | .float q => some q
  | .str s => pyFloatOfStr s
  | _ => Option.none

/-! ### `str()` and dicts -/

/-- Model of Python `str(v)` (and, at `rpr := true`, `repr(v)` as used for
container elements).  `fuel` bounds nesting depth; float formatting and
string-escape details inside `repr` are simplified, which no claim
exercises. -/
def pyStrF : Nat → Bool → PyVal → String
  | _, _, .none => "None"
  | _, _, .bool b => if b then "True" else "False"
  | _, _, .int n => toString n
  | _, _, .float q => toString q
  | _, false, .str s => s
  | _, true, .str s => "\x27" ++ s ++ "\x27"
  | 0, _, .list _ => ""
  | 0, _, .dict _ => ""
  | n + 1, _, .list l =>
      "[" ++ String.intercalate ", " (l.map (pyStrF n true)) ++ "]"
  | n + 1, _, .dict d =>
      "\x7b" ++ String.intercalate ", " (d.map (fun kv => "\x27" ++ kv.1 ++ "\x27: " ++ pyStrF n true kv.2)) ++ "\x7d"

/-- Model of Python `str(v)` / f-string interpolation of `v`. -/
def pyStr (v : PyVal) : String := pyStrF 1000 false v

/-- `d.get(k)` / `d[k]` on the association-list model of a dict:
first (unique) matching key. -/
def dGet : List (String × PyVal) → String → Option PyVal
  | [], _ => Option.none
  | (k', v) :: t, k => if k' = k then some v else dGet t k

/-- `d[k] = v` on the association-list model of a dict: replace the value
in place if the key exists (Python dicts keep the original insertion
position), else append. -/
def dSet : List (String × PyVal) → String → PyVal → List (String × PyVal)
  | [], k, v => [(k, v)]
  | (k', v') :: t, k, v => if k' = k then (k', v) :: t else (k', v') :: dSet t k v

/-- `a.update(b)` on the association-list model: fold `dSet` over `b`'s
items in order. -/
def dUpdate (a b : List (String × PyVal)) : List (String × PyVal) :=
  b.foldl (fun acc kv => dSet acc kv.1 kv.2) a

/-! ### A model of `json.loads`

A fuel-indexed recursive-descent JSON reader producing `PyVal`
(`json.loads` maps JSON objects to dicts — duplicate keys last-wins —
arrays to lists, strings/numbers/booleans/null to the evident values).
`Option.none` models a raised `json.JSONDecodeError`.  `\uXXXX` escapes
and the nonstandard `NaN`/`Infinity` literals are not modelled; no claim
exercises them. -/

def jsonWs (l : List Char) : List Char :=
  l.dropWhile (fun c => c = ' ' || c = '\t' || c = '\n' || c = '\r')

def jsonStrChars : List Char → Option (String × List Char)
  | [] => Option.none
  | '"' :: r => some ("", r)
  | '\\' :: e :: r =>
      (match e with
       | '"' => some '"'
       | '\\' => some '\\'
       | '/' => some '/'
       | 'n' => some '\n'
       | 't' => some '\t'
       | 'r' => some '\r'
       | _ => Option.none).bind fun c =>
        (jsonStrChars r).map (fun (p : String × List Char) => (⟨c :: p.1.data⟩, p.2))
  | c :: r => (jsonStrChars r).map (fun (p : String × List Char) => (⟨c :: p.1.data⟩, p.2))

/-- JSON number: integer part mandatory; fraction and exponent give a
`.float`, otherwise `.int` (mirroring `json.loads`). -/
def jsonNum (l : List Char) : Option (PyVal × List Char) :=
  let (neg, l₁) := match l with
    | '-' :: r => (true, r)
    | r => (false, r)
  let ds := l₁.takeWhile Char.isDigit
  let r₁ := l₁.dropWhile Char.isDigit
  if ds.isEmpty then Option.none else
  (decDigits ds).bind fun ip =>
  let signAdj : Rat → Rat := fun q => if neg then -q else q
  match r₁ with
  | '.' :: r₂ =>
      let fs := r₂.takeWhile Char.isDigit
      let r₃ := r₂.dropWhile Char.isDigit
      if fs.isEmpty then Option.none else
      (decDigits fs).bind fun fp =>
      let base : Rat := (ip : Rat) + (fp : Rat) / (10 : Rat) ^ fs.length
      match r₃ with
      | 'e' :: r₄ => (pyFloatOfStr ⟨'1' :: 'e' :: r₄.takeWhile (fun c => c.isDigit || c = '+' || c = '-')⟩).map
          (fun e => (.float (signAdj (base * e)), r₄.dropWhile (fun c => c.isDigit || c = '+' || c = '-')))
      | 'E' :: r₄ => (pyFloatOfStr ⟨'1' :: 'e' :: r₄.takeWhile (fun c => c.isDigit || c = '+' || c = '-')⟩).map
          (fun e => (.float (signAdj (base * e)), r₄.dropWhile (fun c => c.isDigit || c = '+' || c = '-')))
      | _ => some (.float (signAdj base), r₃)
  | 'e' :: r₄ => (pyFloatOfStr ⟨'1' :: 'e' :: r₄.takeWhile (fun c => c.isDigit || c = '+' || c = '-')⟩).map
      (fun e => (.float (signAdj ((ip : Rat) * e)), r₄.dropWhile (fun c => c.isDigit || c = '+' || c = '-')))
  | 'E' :: r₄ => (pyFloatOfStr ⟨'1' :: 'e' :: r₄.takeWhile (fun c => c.isDigit || c = '+' || c = '-')⟩).map
      (fun e => (.float (signAdj ((ip : Rat) * e)), r₄.dropWhile (fun c => c.isDigit || c = '+' || c = '-')))
  | _ => some (.int (if neg then -(ip : Int) else (ip : Int)), r₁)

mutual

def jsonVal : Nat → List Char → Option (PyVal × List Char)
  | 0, _ => Option.none
  | fuel + 1, l =>
    match jsonWs l with
    | 'n' :: 'u' :: 'l' :: 'l' :: r => some (.none, r)
    | 't' :: 'r' :: 'u' :: 'e' :: r => some (.bool true, r)
    | 'f' :: 'a' :: 'l' :: 's' :: 'e' :: r => some (.bool false, r)
    | '"' :: r => (jsonStrChars r).map (fun p => (.str p.1, p.2))
    | '[' :: r =>
        (match jsonWs r with
         | ']' :: r₂ => some (.list [], r₂)
         | r₂ => (jsonItems fuel r₂).map (fun p => (.list p.1, p.2)))
    | '\x7b' :: r =>
        (match jsonWs r with
         | '\x7d' :: r₂ => some (.dict [], r₂)
         | r₂ => (jsonMembers fuel r₂).map (fun p => (.dict (dUpdate [] p.1), p.2)))
    | r => jsonNum r

def jsonItems : Nat → List Char → Option (List PyVal × List Char)
  | 0, _ => Option.none
  | fuel + 1, l =>
    (jsonVal fuel l).bind fun (v, r) =>
      match jsonWs r with
      | ',' :: r₂ => (jsonItems fuel r₂).map (fun p => (v :: p.1, p.2))
      | ']' :: r₂ => some ([v], r₂)
      | _ => Option.none

def jsonMembers : Nat → List Char → Option (List (String × PyVal) × List Char)
  | 0, _ => Option.none
  | fuel + 1, l =>
    match jsonWs l with
    | '"' :: r =>
        (jsonStrChars r).bind fun (k, r₁) =>
        match jsonWs r₁ with
        | ':' :: r₂ =>
            (jsonVal fuel r₂).bind fun (v, r₃) =>
            match jsonWs r₃ with
            | ',' :: r₄ => (jsonMembers fuel r₄).map (fun p => ((k, v) :: p.1, p.2))
            | '\x7d' :: r₄ => some ([(k, v)], r₄)
            | _ => Option.none
        | _ => Option.none
    | _ => Option.none

end

/-- Model of `json.loads(s)`; `Option.none` models a raised decode error. -/
def jsonLoads (s : String) : Option PyVal :=
  (jsonVal (s.length + 1) s.data).bind fun (v, r) =>
    if (jsonWs r).isEmpty then some v else Option.none

/-! ### Settings coercion helpers of `generate_image` (lines 354-387) -/

/-- Newelle's flat settings surface: `self.get_setting(name)`.
A name the user never set yields `PyVal.none`. -/
abbrev Settings := String → PyVal

/-- `get_int` (lines 354-361): `None` or a failing `int()` coercion falls
back to the default. -/
def get_int (s : Settings) (name : String) (default : Int) : Int :=
  match s name with
  | .none => default
  | v => (pyInt v).getD default

/-- `get_float` (lines 363-370). -/
def get_float (s : Settings) (name : String) (default : Rat) : Rat :=
  match s name with
  | .none => default
  | v => (pyFloat v).getD default

/-- The string fallback of `get_bool` (lines 382-387): compare the
lowercase-stripped text against the recognized truthy/falsy words. -/
def boolFromStr (tt : String) (default : Bool) : Bool :=
  let t : String := ⟨lowerChars (stripChars tt.data)⟩
  if t = "true" ∨ t = "yes" ∨ t = "on" ∨ t = "1" then true
  else if t = "false" ∨ t = "no" ∨ t = "off" ∨ t = "0" then false
  else default

/-- `get_bool` (lines 372-387): `None` → default; bools pass through;
then `bool(int(v))`; on failure the string comparison of `boolFromStr`
on `str(v)`; otherwise the default. -/
def get_bool (s : Settings) (name : String) (default : Bool) : Bool :=
  match s name with
  | .none => default
  | .bool b => b
  | v =>
    match pyInt v with
    | some n => n != 0
    | Option.none => boolFromStr (pyStr v) default

/-! ### The numeric preamble of `generate_image` (lines 312-347) -/

/-- `width` (lines 312-315): `int(get_setting("width"))` with fallback 512. -/
def widthOf (s : Settings) : Int := (pyInt (s "width")).getD 512

/-- `height` (lines 316-319). -/
def heightOf (s : Settings) : Int := (pyInt (s "height")).getD 512

/-- `steps` (lines 322-326): `None` stays `None`; a failing `int()` also
yields `None`. -/
def stepsOf (s : Settings) : Option Int :=
  match s "steps" with
  | .none => Option.none
  | v => pyInt v

/-- `guidance_scale` (lines 328-332). -/
def gsOf (s : Settings) : Option Rat :=
  match s "guidance_scale" with
  | .none => Option.none
  | v => pyFloat v

/-- The sentinel test `seed_raw not in (None, "", "-1")` (line 336);
Python `==` between the raw value and those three constants. -/
def seedSentinel : PyVal → Bool
  | .none => true
  | .str "" => true
  | .str "-1" => true
  | _ => false

/-- `seed` (lines 334-338): sentinel values and failing `int()` both give
`-1`. -/
def seedOf (s : Settings) : Int :=
  let raw := s "seed"
  if seedSentinel raw then -1 else (pyInt raw).getD (-1)

/-- `extra_payload` (lines 340-344): `json.loads` of the setting (default
`"{}"`), any exception — a decode error or a non-string argument —
falling back to the empty dict. -/
def extraPayloadOf (s : Settings) : PyVal :=
  match pyOr (s "extra_payload") (.str "\x7b\x7d") with
  | .str t => (jsonLoads t).getD (.dict [])
  | _ => .dict []

/-- `extra_payload.get("endpoint_path", "/api/generate")` (line 346);
on a non-dict the attribute access raises. -/
def endpointOf (extra : PyVal) : Except String PyVal :=
  match extra with
  | .dict d => .ok ((dGet d "endpoint_path").getD (.str "/api/generate"))
  | _ => .error "AttributeError: object has no attribute get"

/-! ### The request payload (lines 390-415) -/

/-- The payload dict literal of lines 390-415, with `positive`,
`negative`, `width`, `height` and `seed` already computed as in the
source. -/
def buildPayload (s : Settings) (positive : String) (negative : PyVal)
    (width height seed : Int) : List (String × PyVal) :=
  [("prompt", .str positive),
   ("negative_prompt", negative),
   ("width", .int width),
   ("height", .int height),
   ("num_images", .int (get_int s "num_images" 1)),
   ("batch_size", .int (get_int s "batch_size" 1)),
   ("hires_fix", .bool (get_bool s "hires_fix" false)),
   ("adetailer", .bool (get_bool s "adetailer" false)),
   ("enhance_prompt", .bool (get_bool s "enhance_prompt" false)),
   ("img2img_enabled", .bool (get_bool s "img2img_enabled" false)),
   ("img2img_image", pyOr (s "img2img_image") PyVal.none),
   ("stable_fast", .bool (get_bool s "stable_fast" false)),
   ("reuse_seed", .bool ((seed != -1) || get_bool s "reuse_seed" false)),
   ("flux_enabled", .bool (get_bool s "flux_enabled" false)),
   ("prio_speed", .bool (get_bool s "prio_speed" false)),
   ("realistic_model", .bool (get_bool s "realistic_model" false)),
   ("multiscale_enabled", .bool (get_bool s "multiscale_enabled" true)),
   ("multiscale_intermittent", .bool (get_bool s "multiscale_intermittent" false)),
   ("multiscale_factor", .float (get_float s "multiscale_factor" (1/2))),
   ("multiscale_fullres_start", .int (get_int s "multiscale_fullres_start" 3)),
   ("multiscale_fullres_end", .int (get_int s "multiscale_fullres_end" 8)),
   ("keep_models_loaded", .bool (get_bool s "keep_models_loaded" true)),
   ("enable_preview", .bool (get_bool s "enable_preview" false))]

/-- Lines 428-433: attach `steps`, `guidance_scale` and a nonnegative
`seed` when available. -/
def attachExtras (p : List (String × PyVal)) (steps : Option Int)
    (gs : Option Rat) (seed : Int) : List (String × PyVal) :=
  let p₁ := match steps with
    | some n => dSet p "steps" (.int n)
    | Option.none => p
  let p₂ := match gs with
    | some q => dSet p₁ "guidance_scale" (.float q)
    | Option.none => p₁
  if seed ≥ 0 then dSet p₂ "seed" (.int seed) else p₂

/-- Lines 435-439: drop the reserved `endpoint_path` key from the user
extras and overlay the rest, last-key-wins. -/
def mergeExtra (p : List (String × PyVal)) (extra : PyVal) : List (String × PyVal) :=
  match extra with
  | .dict d => dUpdate p (d.filter (fun kv => kv.1 ≠ "endpoint_path"))
  | _ => p

/-- The `img2img_enabled` re-read of lines 418-421:
`bool(int(get_setting("img2img_enabled") or 0))`, any exception giving
`False`. -/
def img2imgEnabledOf (s : Settings) : Bool :=
  match pyInt (pyOr (s "img2img_enabled") (.int 0)) with
  | some n => n != 0
  | Option.none => false

/-! ### The execution environment and observable events of `generate_image` -/

/-- Outcome of `requests.post(url, json=payload, timeout=120)` (line 442):
either the call raises, or it yields a response with a status code, a
body text, and a `resp.json()` outcome (`Except.error` models a raised
decode error).  `resp.ok` is `status_code < 400` in `requests`. -/
inductive PostResult where
  | raise (msg : String)
  | resp (status : Int) (text : String) (jsonBody : Except String PyVal)

/-- `requests.Response.ok`. -/
def respOk (status : Int) : Bool := status < 400

/-- The environment of one `generate_image` call: the live settings, the
extracted prompt, the `msg_uuid` argument (a string or `None`), the
cache directory `self.cache_dir`, the network (`requests.post`), and
whether `base64.b64decode` plus the file write succeed for a given
payload string (the decode/save failure mode). -/
structure GenEnv where
  settings : Settings
  prompt : String
  msg_uuid : Option String
  cacheDir : String
  post : String → List (String × PyVal) → PostResult
  b64Ok : String → Bool

/-- Where the widget got its image from. -/
inductive ImgSrc where
  | fromPath (path : String)
  | fromUrl (url : String)

/-- Observable events of one `generate_image` run: the dispatched POST
(url and JSON payload), the message printed by `show_error_message`, the
last explicit `widget.show_loading` argument, the image handed to the
widget, and a written cache file.  (On the URL and file-path response
branches the cache write happens asynchronously inside widget callbacks
— and on the file-path branch is in fact dead code, since
`download_and_save` raises without a current URL and is passed — so
`cacheWritten` records only the synchronous `_save_base64_png` writes.) -/
structure GenResult where
  posted : Option (String × List (String × PyVal)) := Option.none
  printedError : Option String := Option.none
  loadingShown : Option Bool := Option.none
  imageSet : Option ImgSrc := Option.none
  cacheWritten : Option String := Option.none

/-- `show_error_message` (lines 296-301): print the message and reset the
loading state. -/
def showErrorMsg (msg : String) (ev : GenResult) : GenResult :=
  { ev with printedError := some ("[LightDiffusionExtension] Error: " ++ msg),
            loadingShown := some false }

/-- `f"{msg_uuid or 'latest'}.png"` (line 449): `None` and the empty
string are falsy. -/
def msgOrLatest : Option String → String
  | Option.none => "latest"
  | some u => if u.isEmpty then "latest" else u

/-- `os.path.join(self.cache_dir, f"{msg_uuid or 'latest'}.png")`
(line 449); the join model assumes a relative second component. -/
def cacheOutPath (cacheDir : String) (msg_uuid : Option String) : String :=
  cacheDir ++ "/" ++ msgOrLatest msg_uuid ++ ".png"

/-! ### Building the request (lines 305-439) -/

/-- Outcome of the part of `generate_image` before the POST: a raised
exception, the client-side Img2Img rejection (lines 423-425), or a URL
and payload ready to dispatch. -/
inductive BuildOutcome where
  | exn (msg : String)
  | reject (msg : String)
  | go (url : String) (payload : List (String × PyVal))

/-- Lines 305-439 of `generate_image`: read and coerce the settings,
build the payload, apply the Img2Img guard, attach the optional extras
and overlay the user extras.  `.exn` arises at `extra_payload.get` on a
non-dict JSON value (line 346), at `pos_tpl.replace` on a non-string
truthy template (line 350), and at `.strip()` on a non-string truthy
`img2img_image` (line 422). -/
def computePayloadAndUrl (env : GenEnv) : BuildOutcome :=
  let s := env.settings
  let base_url := rstripSlashes (pyStr (pyOr (s "url") (.str "http://localhost:7861")))
  let negative := pyOr (s "negative-prompt") (.str "")
  let width := widthOf s
  let height := heightOf s
  let steps := stepsOf s
  let guidance_scale := gsOf s
  let seed := seedOf s
  let extra_payload := extraPayloadOf s
  match endpointOf extra_payload with
  | .error m => .exn m
  | .ok ep =>
    let url := base_url ++ pyStr ep
    match pyOr (s "positive-prompt") (.str "[input]") with
    | .str tpl =>
      let positive := tpl.replace "[input]" env.prompt
      let payload := buildPayload s positive negative width height seed
      match pyOr (s "img2img_image") (.str "") with
      | .str im =>
        if img2imgEnabledOf s ∧ pyStrip im = "" then
          .reject "Img2Img is enabled but no image path is set in Advanced Settings."
        else
          .go url (mergeExtra (attachExtras payload steps guidance_scale seed) extra_payload)
      | _ => .exn "AttributeError: strip"
    | _ => .exn "AttributeError: replace"

/-! ### Normalizing the response (lines 451-481) -/

/-- `data.get("images")` is a nonempty list: its first element
(line 452-453). -/
def imagesHead (data : PyVal) : Option PyVal :=
  match data with
  | .dict d =>
    match dGet d "images" with
    | some (.list (x :: _)) => some x
    | _ => Option.none
  | _ => Option.none

/-- `isinstance(data, dict) and isinstance(data.get(k), str)`:
the string under key `k`. -/
def strKey (data : PyVal) (k : String) : Option String :=
  match data with
  | .dict d =>
    match dGet d k with
    | some (.str s) => some s
    | _ => Option.none
  | _ => Option.none

/-- The response shape consumed by the normalizer. -/
inductive NormShape where
  | imagesList (first : PyVal)
  | singleImage (b64 : String)
  | imageUrl (url : String)
  | filePath (path : String)
  | unexpected

/-- The four response interpretations of lines 451-479, in source order:
nonempty `images` list, string `image`, string `image_url`, string
`file_path`; else the unexpected-format failure (line 481). -/
def normalizeResponse (data : PyVal) : NormShape :=
  match imagesHead data with
  | some x => .imagesList x
  | Option.none =>
  match strKey data "image" with
  | some s => .singleImage s
  | Option.none =>
  match strKey data "image_url" with
  | some u => .imageUrl u
  | Option.none =>
  match strKey data "file_path" with
  | some p => .filePath p
  | Option.none => .unexpected

/-- The `data:`-prefix handling of `_save_base64_png` (lines 546-547). -/
def dataPrefixSplit (bs : String) : String :=
  if bs.contains ',' ∧ (pyStrip bs).startsWith "data:" then
    ⟨(bs.data.dropWhile (· ≠ ',')).drop 1⟩
  else bs

/-! ### `generate_image` itself -/

/-- Result of the `try` body (lines 303-481): a normal return carrying
the observable events, or an exception carrying the message and the
events that already happened. -/
inductive BodyOut where
  | ret (r : GenResult)
  | exn (msg : String) (ev : GenResult)

/-- `_save_base64_png(img_b64, cache_out)` followed by
`widget.set_image_from_path(cache_out)` (lines 453-455 / 460-462):
raises on a non-string first element (`","  in b64` is a `TypeError`)
or when the decode/write fails. -/
def saveAndShow (env : GenEnv) (b64 : PyVal) (out : String) (ev : GenResult) : BodyOut :=
  match b64 with
  | .str bs =>
    if env.b64Ok (dataPrefixSplit bs) then
      .ret { ev with cacheWritten := some out, imageSet := some (.fromPath out) }
    else .exn "binascii.Error: invalid base64-encoded string" ev
  | _ => .exn "TypeError: argument should be a bytes-like object or ASCII string" ev

/-- Lines 448-481 of the `try` body: interpret the parsed response
`data` (the four shapes, lines 451-481); `ev` records the POST that
already happened. -/
def respStage (env : GenEnv) (ev : GenResult) (data : PyVal) : BodyOut :=
  let cache_out := cacheOutPath env.cacheDir env.msg_uuid
  match normalizeResponse data with
  | .imagesList x => saveAndShow env x cache_out ev
  | .singleImage sb => saveAndShow env (.str sb) cache_out ev
  | .imageUrl u => .ret { ev with imageSet := some (.fromUrl u) }
  | .filePath p => .ret { ev with imageSet := some (.fromPath p) }
  | .unexpected => .ret (showErrorMsg "Unexpected response format from backend." ev)

/-- Lines 442-481 of the `try` body: dispatch the POST, check
`resp.ok`, parse `resp.json()` and hand over to `respStage`. -/
def postStage (env : GenEnv) (url : String) (payload : List (String × PyVal)) : BodyOut :=
  let ev : GenResult := { posted := some (url, payload) }
  match env.post url payload with
  | .raise m => .exn m ev
  | .resp status text jsonBody =>
    if respOk status then
      match jsonBody with
      | .error m => .exn m ev
      | .ok data => respStage env ev data
    else
      .ret (showErrorMsg ("HTTP " ++ toString status ++ ": " ++ text.take 200) ev)

/-- The `try` body of `generate_image` (lines 303-481). -/
def generateImageBody (env : GenEnv) : BodyOut :=
  match computePayloadAndUrl env with
  | .exn m => .exn m {}
  | .reject m => .ret (showErrorMsg m {})
  | .go url payload => postStage env url payload

/-- How a call of `generate_image` ends at its caller: a normal return,
or a propagated exception. -/
inductive CallOutcome where
  | returns (r : GenResult)
  | raises (msg : String)

/-- `generate_image` (lines 295-484).  The outer
`try ... except Exception as e` (lines 303, 482-484) turns every body
exception into `show_error_message(str(e))`; without that handler a body
exception would end in `.raises`. -/
def generateImageCall (env : GenEnv) : CallOutcome :=
  match generateImageBody env with
  | .ret r => .returns r
  | .exn m ev => .returns (showErrorMsg m ev)

/-- The `except` handler applied to a body outcome: a normal return
passes through, an exception becomes `show_error_message(str(e))`. -/
def runBody : BodyOut → GenResult
  | .ret r => r
  | .exn m ev => showErrorMsg m ev

/-- The observable events of a `generate_image` call. -/
def generateImage (env : GenEnv) : GenResult :=
  runBody (generateImageBody env)

/-! ### `_extract_prompt_from_block` (lines 487-542) -/

/-- The word characters of Python's `\b` (ASCII model). -/
def isWordChar (c : Char) : Bool := c.isAlphanum || c = '_'

/-- Triple backticks. -/
def ticks : List Char := "```".data

/-- Does `re.match(tag + "\\b[:\\-]?", s, re.IGNORECASE)` succeed at the
start of `s`?  (`\b` after the tag: the next character is absent or a
non-word character.) -/
def tagMatch (tag : List Char) (s : List Char) : Bool :=
  lowerChars (s.take tag.length) = tag &&
    (match s.drop tag.length with
     | [] => true
     | c :: _ => !isWordChar c)

/-- The optional `[:\-]?` after the tag. -/
def dropPunct : List Char → List Char
  | ':' :: r => r
  | '-' :: r => r
  | r => r

/-- `re.sub(tag + "\\b[:\\-]?\\s*", "", s, count=1, re.IGNORECASE)` with
the pattern anchored at the start: on a match remove the tag, the
optional punctuation and the greedy whitespace run; otherwise return `s`
unchanged. -/
def stripTag (tag : List Char) (s : List Char) : List Char :=
  if tagMatch tag s then wsDropL (dropPunct (s.drop tag.length)) else s

/-- Python `s[3:-3]` for `len(s) ≥ 6`. -/
def slice3 (l : List Char) : List Char := (l.drop 3).take (l.length - 6)

/-- `strip_ticks` (lines 501-506): strip, remove one surrounding pair of
triple backticks when both ends carry them and the length allows, strip
again. -/
def stripTicks (l : List Char) : List Char :=
  let s := stripChars l
  let s₂ := if ticks.isPrefixOf s && ticks.isSuffixOf s && decide (6 ≤ s.length) then slice3 s else s
  stripChars s₂

/-- `re.match(tag + "\\b[:\\-]?\\s*(.*)$", info, re.IGNORECASE)` for the
already-stripped `info` (the function strips `lang` before this): since
`info` then has no trailing whitespace, the regex matches iff after the
tag head and a maximal whitespace skip no newline remains, and group 1
is that remainder. -/
def infoGroup1 (tag : List Char) (info : List Char) : Option (List Char) :=
  if tagMatch tag info then
    let r := wsDropL (dropPunct (info.drop tag.length))
    if r.contains '\n' then Option.none else some r
  else Option.none

/-- `re.match(tag + "$", info, re.IGNORECASE)` for stripped `info`. -/
def tagExact (tag : List Char) (info : List Char) : Bool :=
  tagMatch tag info &&
    (let r := dropPunct (info.drop tag.length)
     r.isEmpty || r = ['\n'])

/-- The one-liner branch (lines 514-524): try both tag patterns on the
info string, returning the stripped group; the exact-tag fallback
(lines 522-524) is subsumed by the first loop but kept for fidelity. -/
def infoExtract (info : List Char) : Option (List Char) :=
  match infoGroup1 "generateimage".data info with
  | some g => some (stripChars g)
  | Option.none =>
  match infoGroup1 "lightdiffusion".data info with
  | some g => some (stripChars g)
  | Option.none =>
  if tagExact "generateimage".data info ∨ tagExact "lightdiffusion".data info
  then some [] else Option.none

/-- `_extract_prompt_from_block` on char lists. -/
def extractChars (codeblock : List Char) (lang : List Char) : List Char :=
  let body := stripChars codeblock
  let info := stripChars lang
  match (if body.isEmpty ∧ ¬ info.isEmpty then infoExtract info else Option.none) with
  | some g => g
  | Option.none =>
    let body₁ := stripTicks body
    let body₂ := stripTag "lightdiffusion".data (stripTag "generateimage".data body₁)
    let body₃ :=
      if ticks.isPrefixOf body₂ then
        let inner := stripTicks body₂
        stripChars (stripTag "lightdiffusion".data (stripTag "generateimage".data inner))
      else body₂
    stripChars body₃

/-- `_extract_prompt_from_block(codeblock, lang)` (lines 487-542);
`None` arguments and falsy strings both reach the processing as `""`. -/
def extractPrompt (codeblock : Option String) (lang : Option String) : String :=
  ⟨extractChars (codeblock.getD "").data (lang.getD "").data⟩

/-! ### Lemmas about the string primitives -/

lemma wsDropL_idem (l : List Char) : wsDropL (wsDropL l) = wsDropL l :=
  List.dropWhile_idempotent _ l

lemma stripChars_wsDropL_fix (l : List Char) :
    wsDropL (stripChars l) = stripChars l := by
  simp only [stripChars, wsDropL_idem]

lemma stripChars_rdropWhile_fix (l : List Char) :
    List.rdropWhile Char.isWhitespace (stripChars l) = stripChars l := by
  set Y := List.rdropWhile Char.isWhitespace l with hYdef
  have hYfix : List.dropWhile Char.isWhitespace Y.reverse = Y.reverse := by
    rw [hYdef, List.rdropWhile, List.reverse_reverse]
    exact List.dropWhile_idempotent _ _
  have hm : stripChars l = List.dropWhile Char.isWhitespace Y := rfl
  rcases hrev : (List.dropWhile Char.isWhitespace Y).reverse with _ | ⟨c, rest⟩
  · have hnil : List.dropWhile Char.isWhitespace Y = [] := by
      simpa using congrArg List.reverse hrev
    rw [hm, hnil]
    simp [List.rdropWhile]
  · obtain ⟨t, ht⟩ : List.dropWhile Char.isWhitespace Y <:+ Y := List.dropWhile_suffix _
    have hYrev : Y.reverse = c :: (rest ++ t.reverse) := by
      rw [← ht, List.reverse_append, hrev]
      rfl
    have hc : Char.isWhitespace c = false := by
      by_contra hcc
      have hcw : Char.isWhitespace c = true := by simpa using hcc
      have hfix := hYfix
      rw [hYrev, List.dropWhile_cons, if_pos hcw] at hfix
      have hlen := (List.dropWhile_suffix (l := rest ++ t.reverse) Char.isWhitespace).length_le
      rw [hfix] at hlen
      simp at hlen
    rw [hm, List.rdropWhile, hrev, List.dropWhile_cons, if_neg (by simp [hc])]
    rw [← hrev, List.reverse_reverse]

lemma stripChars_idem (l : List Char) : stripChars (stripChars l) = stripChars l := by
  conv_lhs => rw [stripChars]
  rw [stripChars_rdropWhile_fix, stripChars_wsDropL_fix]

lemma wsDropL_append_left (l₁ l₂ : List Char)
    (h : wsDropL l₁ = l₁) (hne : l₁ ≠ []) : wsDropL (l₁ ++ l₂) = l₁ ++ l₂ := by
  rw [wsDropL, List.dropWhile_append]
  rw [wsDropL] at h
  rw [h]
  simp [hne]

lemma rdropWhile_append_right (l₁ l₂ : List Char)
    (h : List.rdropWhile Char.isWhitespace l₂ = l₂) (hne : l₂ ≠ []) :
    List.rdropWhile Char.isWhitespace (l₁ ++ l₂) = l₁ ++ l₂ := by
  have h' : List.dropWhile Char.isWhitespace l₂.reverse = l₂.reverse := by
    have := congrArg List.reverse h
    rwa [List.rdropWhile, List.reverse_reverse] at this
    
  rw [List.rdropWhile, List.reverse_append, List.dropWhile_append, h']
  simp [hne]

lemma stripChars_append_fix (l₁ l₂ : List Char)
    (h₁ : wsDropL l₁ = l₁) (h₁ne : l₁ ≠ [])
    (h₂ : List.rdropWhile Char.isWhitespace l₂ = l₂) (h₂ne : l₂ ≠ []) :
    stripChars (l₁ ++ l₂) = l₁ ++ l₂ := by
  rw [stripChars, rdropWhile_append_right _ _ h₂ h₂ne, wsDropL_append_left _ _ h₁ h₁ne]

lemma strip_fix_left {pd : List Char} (hp : stripChars pd = pd) : wsDropL pd = pd := by
  conv_lhs => rw [← hp]
  rw [stripChars_wsDropL_fix, hp]

lemma strip_fix_right {pd : List Char} (hp : stripChars pd = pd) :
    List.rdropWhile Char.isWhitespace pd = pd := by
  conv_lhs => rw [← hp]
  rw [stripChars_rdropWhile_fix, hp]

lemma stripTicks_clean {pd : List Char} (hp : stripChars pd = pd)
    (h2 : ticks.isPrefixOf pd = false) : stripTicks pd = pd := by
  simp only [stripTicks]
  rw [hp, h2]
  simpa using hp

lemma stripTag_no {tag pd : List Char} (h : tagMatch tag pd = false) :
    stripTag tag pd = pd := by
  simp [stripTag, h]

/-- A prompt that is already stripped, carries no leading backticks and no
leading recognized tag passes through `_extract_prompt_from_block`
unchanged. -/
lemma extractChars_clean {pd : List Char}
    (hp : stripChars pd = pd)
    (h2 : ticks.isPrefixOf pd = false)
    (h3a : tagMatch "generateimage".data pd = false)
    (h3b : tagMatch "lightdiffusion".data pd = false) :
    extractChars pd [] = pd := by
  have hTicks := stripTicks_clean hp h2
  have hg := stripTag_no h3a
  have hl := stripTag_no h3b
  simp only [extractChars]
  rw [hp, hTicks, hg, hl]
  rw [show stripChars ([] : List Char) = ([] : List Char) from rfl]
  simp [h2, hp]

lemma stripChars_tagSpace (pd : List Char) (hp : stripChars pd = pd) (hne : pd ≠ []) :
    stripChars ("generateimage ".data ++ pd) = "generateimage ".data ++ pd := by
  apply stripChars_append_fix
  · decide
  · decide
  · exact strip_fix_right hp
  · exact hne

/-- The tag-prefixed-body shape (form 3 of the docstring). -/
lemma extractChars_shape3 {pd : List Char}
    (hp : stripChars pd = pd)
    (h2 : ticks.isPrefixOf pd = false)
    (h3b : tagMatch "lightdiffusion".data pd = false)
    (hne : pd ≠ []) :
    extractChars ("generateimage ".data ++ pd) [] = pd := by
  have hbody := stripChars_tagSpace pd hp hne
  have hsg : stripTag "generateimage".data ("generateimage ".data ++ pd) = wsDropL pd := rfl
  have hTicks : stripTicks ("generateimage ".data ++ pd) = "generateimage ".data ++ pd := by
    simp only [stripTicks]
    rw [hbody, show ticks.isPrefixOf ("generateimage ".data ++ pd) = false from rfl]
    simpa using hbody
  have hl := stripTag_no h3b
  simp only [extractChars]
  rw [hbody, hTicks, hsg, strip_fix_left hp, hl]
  rw [show stripChars ([] : List Char) = ([] : List Char) from rfl]
  simp [show ("generateimage ".data ++ pd).isEmpty = false from rfl, h2, hp]

lemma stripChars_fence (pd : List Char) :
    stripChars ("```generateimage\n".data ++ pd ++ "\n```".data)
      = "```generateimage\n".data ++ pd ++ "\n```".data := by
  rw [List.append_assoc]
  apply stripChars_append_fix
  · decide
  · decide
  · apply rdropWhile_append_right
    · decide
    · decide
  · simp

lemma slice3_fence (pd : List Char) :
    slice3 ("```generateimage\n".data ++ pd ++ "\n```".data)
      = "generateimage\n".data ++ pd ++ ['\n'] := by
  have hlen : ("```generateimage\n".data ++ pd ++ "\n```".data).length - 6 = pd.length + 15 := by
    simp [List.length_append, show "```generateimage\n".data.length = 17 from rfl,
          show "\n```".data.length = 4 from rfl]
  rw [slice3, hlen, show ("```generateimage\n".data ++ pd ++ "\n```".data).drop 3
      = "generateimage\n".data ++ pd ++ "\n```".data from rfl]
  have hsplit : "generateimage\n".data ++ pd ++ "\n```".data
      = ("generateimage\n".data ++ pd ++ ['\n']) ++ "```".data := by
    simp [show "\n```".data = '\n' :: "```".data from rfl]
  rw [hsplit]
  apply List.take_left'
  simp [List.length_append, show "generateimage\n".data.length = 14 from rfl]

lemma stripTicks_fence (pd : List Char) (hp : stripChars pd = pd) (hne : pd ≠ []) :
    stripTicks ("```generateimage\n".data ++ pd ++ "\n```".data)
      = "generateimage\n".data ++ pd := by
  have hF := stripChars_fence pd
  have hpre : ticks.isPrefixOf ("```generateimage\n".data ++ pd ++ "\n```".data) = true := rfl
  have hsuf : ticks.isSuffixOf ("```generateimage\n".data ++ pd ++ "\n```".data) = true := by
    rw [List.isSuffixOf_iff_suffix]
    exact ⟨"```generateimage\n".data ++ pd ++ ['\n'], by
      simp [ticks, show "\n```".data = '\n' :: "```".data from rfl]⟩
  have hlen6 : decide (6 ≤ ("```generateimage\n".data ++ pd ++ "\n```".data).length) = true := by
    rw [decide_eq_true_eq]
    simp [List.length_append, show "```generateimage\n".data.length = 17 from rfl,
          show "\n```".data.length = 4 from rfl]
  simp only [stripTicks]
  rw [hF, hpre, hsuf, hlen6]
  simp only [Bool.and_self, if_true]
  rw [slice3_fence]
  rw [stripChars, List.rdropWhile_concat_pos _ _ '\n' (by decide),
      rdropWhile_append_right _ _ (strip_fix_right hp) hne,
      wsDropL_append_left _ _ (by decide) (by decide)]

/-- The fenced multi-line-body shape (form 1 of the docstring). -/
lemma extractChars_shape1 {pd : List Char}
    (hp : stripChars pd = pd)
    (h2 : ticks.isPrefixOf pd = false)
    (h3b : tagMatch "lightdiffusion".data pd = false)
    (hne : pd ≠ []) :
    extractChars ("```generateimage\n".data ++ pd ++ "\n```".data) [] = pd := by
  have hF := stripChars_fence pd
  have hT := stripTicks_fence pd hp hne
  have hsg : stripTag "generateimage".data ("generateimage\n".data ++ pd) = wsDropL pd := rfl
  have hl := stripTag_no h3b
  simp only [extractChars]
  rw [hF, hT, hsg, strip_fix_left hp, hl]
  rw [show stripChars ([] : List Char) = ([] : List Char) from rfl]
  simp [show ("```generateimage\n".data ++ pd ++ "\n```".data).isEmpty = false from rfl, h2, hp]

/-- The one-liner info-string shape (form 2 of the docstring). -/
lemma extractChars_shape2 {pd : List Char}
    (hp : stripChars pd = pd)
    (hnl : pd.contains '\n' = false)
    (hne : pd ≠ []) :
    extractChars [] ("generateimage ".data ++ pd) = pd := by
  have hinfo := stripChars_tagSpace pd hp hne
  have hig : infoGroup1 "generateimage".data ("generateimage ".data ++ pd)
      = if (wsDropL pd).contains '\n' then Option.none else some (wsDropL pd) := rfl
  rw [strip_fix_left hp, hnl] at hig
  simp only [if_false, Bool.false_eq_true] at hig
  have hie : infoExtract ("generateimage ".data ++ pd) = some pd := by
    simp only [infoExtract]
    rw [hig]
    simp [hp]
  simp only [extractChars]
  rw [hinfo, show stripChars ([] : List Char) = ([] : List Char) from rfl, hie]
  simp [show ("generateimage ".data ++ pd).isEmpty = false from rfl]

/-! ### Lemmas about the dict model -/

lemma dGet_dSet_self (a : List (String × PyVal)) (k : String) (v : PyVal) :
    dGet (dSet a k v) k = some v := by
  induction a with
  | nil => simp [dSet, dGet]
  | cons hd t ih =>
    obtain ⟨k', v'⟩ := hd
    by_cases h : k' = k
    · subst h
      simp [dSet, dGet]
    · simp [dSet, dGet, h, ih]

lemma dGet_dSet_ne (a : List (String × PyVal)) {k k' : String} (v : PyVal)
    (h : k' ≠ k) : dGet (dSet a k v) k' = dGet a k' := by
  have h' : ¬ k = k' := fun hh => h hh.symm
  induction a with
  | nil => simp [dSet, dGet, h']
  | cons hd t ih =>
    obtain ⟨k₀, v₀⟩ := hd
    by_cases h₀ : k₀ = k
    · subst h₀
      simp [dSet, dGet, h']
    · simp [dSet, dGet, h₀, ih]

lemma dGet_dUpdate_not_mem (a b : List (String × PyVal)) {k : String}
    (h : k ∉ b.map Prod.fst) : dGet (dUpdate a b) k = dGet a k := by
  induction b generalizing a with
  | nil => rfl
  | cons hd t ih =>
    obtain ⟨k₀, v₀⟩ := hd
    simp only [List.map_cons, List.mem_cons, not_or] at h
    show dGet (dUpdate (dSet a k₀ v₀) t) k = dGet a k
    rw [ih _ h.2, dGet_dSet_ne _ _ h.1]

lemma dGet_dUpdate_mem (a b : List (String × PyVal)) {k : String}
    (hnd : (b.map Prod.fst).Nodup) (h : k ∈ b.map Prod.fst) :
    dGet (dUpdate a b) k = dGet b k := by
  induction b generalizing a with
  | nil => simp at h
  | cons hd t ih =>
    obtain ⟨k₀, v₀⟩ := hd
    simp only [List.map_cons, List.nodup_cons] at hnd
    by_cases hk : k = k₀
    · subst hk
      show dGet (dUpdate (dSet a k v₀) t) k = dGet ((k, v₀) :: t) k
      rw [dGet_dUpdate_not_mem _ _ hnd.1, dGet_dSet_self]
      simp [dGet]
    · have hmem : k ∈ t.map Prod.fst := by
        simp only [List.map_cons, List.mem_cons] at h
        tauto
      show dGet (dUpdate (dSet a k₀ v₀) t) k = dGet ((k₀, v₀) :: t) k
      rw [ih _ hnd.2 hmem]
      rw [show dGet ((k₀, v₀) :: t) k = if k₀ = k then some v₀ else dGet t k from rfl,
          if_neg (fun hh => hk hh.symm)]

/-! ### Flow lemmas for `generate_image` -/

lemma runBody_saveAndShow_posted (env : GenEnv) (b64 : PyVal) (out : String) (ev : GenResult) :
    (runBody (saveAndShow env b64 out ev)).posted = ev.posted := by
  cases b64 <;> simp only [saveAndShow]
  case str s =>
    by_cases hb : env.b64Ok (dataPrefixSplit s) <;> simp [hb, runBody, showErrorMsg]
  all_goals simp [runBody, showErrorMsg]

lemma runBody_saveAndShow_cache (env : GenEnv) (b64 : PyVal) (out : String) (ev : GenResult) :
    (runBody (saveAndShow env b64 out ev)).cacheWritten = some out ∨
    (runBody (saveAndShow env b64 out ev)).cacheWritten = ev.cacheWritten := by
  cases b64 <;> simp only [saveAndShow]
  case str s =>
    by_cases hb : env.b64Ok (dataPrefixSplit s) <;> simp [hb, runBody, showErrorMsg]
  all_goals simp [runBody, showErrorMsg]

lemma runBody_respStage_posted (env : GenEnv) (ev : GenResult) (data : PyVal) :
    (runBody (respStage env ev data)).posted = ev.posted := by
  simp only [respStage]
  cases normalizeResponse data with
  | imagesList x => exact runBody_saveAndShow_posted env x _ _
  | singleImage sb => exact runBody_saveAndShow_posted env _ _ _
  | imageUrl uu => rfl
  | filePath p => rfl
  | unexpected => rfl

lemma runBody_respStage_cache (env : GenEnv) (ev : GenResult) (data : PyVal) :
    (runBody (respStage env ev data)).cacheWritten = some (cacheOutPath env.cacheDir env.msg_uuid) ∨
    (runBody (respStage env ev data)).cacheWritten = ev.cacheWritten := by
  simp only [respStage]
  cases normalizeResponse data with
  | imagesList x => exact runBody_saveAndShow_cache env x _ _
  | singleImage sb => exact runBody_saveAndShow_cache env _ _ _
  | imageUrl uu => exact Or.inr rfl
  | filePath p => exact Or.inr rfl
  | unexpected => exact Or.inr rfl

lemma postStage_posted (env : GenEnv) (u : String) (pl : List (String × PyVal)) :
    (runBody (postStage env u pl)).posted = some (u, pl) := by
  simp only [postStage]
  generalize env.post u pl = pr
  cases pr with
  | raise m => rfl
  | resp status text jb =>
    by_cases hok : respOk status = true
    · simp only [hok, if_true]
      cases jb with
      | error m => rfl
      | ok data => exact runBody_respStage_posted env _ data
    · simp only [hok, if_false, Bool.false_eq_true]
      rfl

lemma postStage_cache (env : GenEnv) (u : String) (pl : List (String × PyVal)) :
    (runBody (postStage env u pl)).cacheWritten = some (cacheOutPath env.cacheDir env.msg_uuid) ∨
    (runBody (postStage env u pl)).cacheWritten = Option.none := by
  simp only [postStage]
  generalize env.post u pl = pr
  cases pr with
  | raise m => exact Or.inr rfl
  | resp status text jb =>
    by_cases hok : respOk status = true
    · simp only [hok, if_true]
      cases jb with
      | error m => exact Or.inr rfl
      | ok data => exact runBody_respStage_cache env _ data
    · simp only [hok, if_false, Bool.false_eq_true]
      exact Or.inr rfl

lemma generateImage_posted (env : GenEnv) :
    (generateImage env).posted
      = match computePayloadAndUrl env with
        | .go u pl => some (u, pl)
        | _ => Option.none := by
  unfold generateImage generateImageBody
  cases computePayloadAndUrl env with
  | exn m => rfl
  | reject m => rfl
  | go u pl => exact postStage_posted env u pl

lemma generateImage_cache (env : GenEnv) :
    (generateImage env).cacheWritten = some (cacheOutPath env.cacheDir env.msg_uuid) ∨
    (generateImage env).cacheWritten = Option.none := by
  unfold generateImage generateImageBody
  cases computePayloadAndUrl env with
  | exn m => exact Or.inr rfl
  | reject m => exact Or.inr rfl
  | go u pl => exact postStage_cache env u pl

/-- A successful build (outcome `.go`) determines the URL and the payload:
the URL is the rstripped base URL concatenated with the (stringified)
endpoint path from the extras, and the payload is the built dict with
optional extras attached and the user extras overlaid. -/
lemma computePayloadAndUrl_go_spec {env : GenEnv} {u : String}
    {pl : List (String × PyVal)} (h : computePayloadAndUrl env = .go u pl) :
    ∃ ep tpl im,
      endpointOf (extraPayloadOf env.settings) = .ok ep ∧
      pyOr (env.settings "positive-prompt") (.str "[input]") = .str tpl ∧
      pyOr (env.settings "img2img_image") (.str "") = .str im ∧
      u = rstripSlashes (pyStr (pyOr (env.settings "url") (.str "http://localhost:7861")))
          ++ pyStr ep ∧
      pl = mergeExtra
            (attachExtras
              (buildPayload env.settings (tpl.replace "[input]" env.prompt)
                (pyOr (env.settings "negative-prompt") (.str ""))
                (widthOf env.settings) (heightOf env.settings) (seedOf env.settings))
              (stepsOf env.settings) (gsOf env.settings) (seedOf env.settings))
            (extraPayloadOf env.settings) := by
  simp only [computePayloadAndUrl] at h
  cases he : endpointOf (extraPayloadOf env.settings) with
  | error m => rw [he] at h; exact BuildOutcome.noConfusion h
  | ok ep =>
    rw [he] at h
    cases ht : pyOr (env.settings "positive-prompt") (.str "[input]") <;> rw [ht] at h <;>
      try exact BuildOutcome.noConfusion h
    case str tpl =>
      cases hi : pyOr (env.settings "img2img_image") (.str "") <;> rw [hi] at h <;>
        try exact BuildOutcome.noConfusion h
      case str im =>
        replace h : (if img2imgEnabledOf env.settings = true ∧ pyStrip im = "" then
            BuildOutcome.reject "Img2Img is enabled but no image path is set in Advanced Settings."
          else
            BuildOutcome.go
              (rstripSlashes (pyStr (pyOr (env.settings "url") (PyVal.str "http://localhost:7861")))
                ++ pyStr ep)
              (mergeExtra
                (attachExtras
                  (buildPayload env.settings (tpl.replace "[input]" env.prompt)
                    (pyOr (env.settings "negative-prompt") (PyVal.str "")) (widthOf env.settings)
                    (heightOf env.settings) (seedOf env.settings))
                  (stepsOf env.settings) (gsOf env.settings) (seedOf env.settings))
                (extraPayloadOf env.settings))) = BuildOutcome.go u pl := h
        by_cases hg : img2imgEnabledOf env.settings = true ∧ pyStrip im = ""
        · rw [if_pos hg] at h
          exact BuildOutcome.noConfusion h
        · rw [if_neg hg] at h
          injection h with h₁ h₂
          exact ⟨ep, tpl, im, rfl, rfl, rfl, h₁.symm, h₂.symm⟩

/-- The 23 keys of the payload dict literal, in source order. -/
def payloadKeys : List String :=
  ["prompt", "negative_prompt", "width", "height", "num_images", "batch_size",
   "hires_fix", "adetailer", "enhance_prompt", "img2img_enabled", "img2img_image",
   "stable_fast", "reuse_seed", "flux_enabled", "prio_speed", "realistic_model",
   "multiscale_enabled", "multiscale_intermittent", "multiscale_factor",
   "multiscale_fullres_start", "multiscale_fullres_end", "keep_models_loaded",
   "enable_preview"]

lemma buildPayload_keys (s : Settings) (positive : String) (negative : PyVal)
    (width height seed : Int) :
    (buildPayload s positive negative width height seed).map Prod.fst = payloadKeys := rfl

lemma dGet_buildPayload_reuse (s : Settings) (positive : String) (negative : PyVal)
    (width height seed : Int) :
    dGet (buildPayload s positive negative width height seed) "reuse_seed"
      = some (.bool ((seed != -1) || get_bool s "reuse_seed" false)) := rfl

lemma dGet_buildPayload_ep (s : Settings) (positive : String) (negative : PyVal)
    (width height seed : Int) :
    dGet (buildPayload s positive negative width height seed) "endpoint_path"
      = Option.none := rfl

lemma dGet_attachExtras_other (p : List (String × PyVal)) (st : Option Int)
    (gs : Option Rat) (sd : Int) {k : String}
    (h1 : k ≠ "steps") (h2 : k ≠ "guidance_scale") (h3 : k ≠ "seed") :
    dGet (attachExtras p st gs sd) k = dGet p k := by
  unfold attachExtras
  cases st <;> cases gs <;> by_cases hs : sd ≥ 0 <;>
    simp [hs, dGet_dSet_ne _ _ h1, dGet_dSet_ne _ _ h2, dGet_dSet_ne _ _ h3]

lemma dGet_isSome_of_mem_keys (l : List (String × PyVal)) {k : String}
    (h : k ∈ l.map Prod.fst) : (dGet l k).isSome := by
  induction l with
  | nil => simp at h
  | cons hd t ih =>
    obtain ⟨k₀, v₀⟩ := hd
    by_cases hk : k₀ = k
    · simp [dGet, hk]
    · simp only [List.map_cons, List.mem_cons] at h
      rcases h with h | h
      · exact absurd h.symm hk
      · simp [dGet, hk, ih h]

lemma dGet_dSet_isSome (a : List (String × PyVal)) (k k' : String) (v : PyVal)
    (h : (dGet a k').isSome) : (dGet (dSet a k v) k').isSome := by
  by_cases hk : k' = k
  · subst hk
    simp [dGet_dSet_self]
  · rw [dGet_dSet_ne _ _ hk]
    exact h

lemma dGet_dUpdate_isSome (a b : List (String × PyVal)) {k : String}
    (h : (dGet a k).isSome) : (dGet (dUpdate a b) k).isSome := by
  induction b generalizing a with
  | nil => exact h
  | cons hd t ih => exact ih _ (dGet_dSet_isSome _ _ _ _ h)

lemma dGet_attachExtras_isSome (p : List (String × PyVal)) (st : Option Int)
    (gs : Option Rat) (sd : Int) {k : String} (h : (dGet p k).isSome) :
    (dGet (attachExtras p st gs sd) k).isSome := by
  unfold attachExtras
  cases st <;> cases gs <;> by_cases hs : sd ≥ 0 <;> simp only [hs, if_true, if_false] <;>
    repeat' first
      | exact h
      | apply dGet_dSet_isSome

lemma filtered_keys_sub {d : List (String × PyVal)} {k : String}
    (h : k ∈ (d.filter (fun kv => kv.1 ≠ "endpoint_path")).map Prod.fst) :
    k ∈ d.map Prod.fst ∧ k ≠ "endpoint_path" := by
  obtain ⟨kv, hmem, hfst⟩ := List.mem_map.mp h
  have hm := List.mem_filter.mp hmem
  refine ⟨List.mem_map.mpr ⟨kv, hm.1, hfst⟩, ?_⟩
  have h2 := hm.2
  subst hfst
  simpa using h2

lemma dGet_mergeExtra_ep (p : List (String × PyVal)) (extra : PyVal) :
    dGet (mergeExtra p extra) "endpoint_path" = dGet p "endpoint_path" := by
  cases extra <;> try rfl
  case dict d =>
    apply dGet_dUpdate_not_mem
    intro h
    exact (filtered_keys_sub h).2 rfl

lemma dGet_mergeExtra_not_mem (p d : List (String × PyVal)) {k : String}
    (h : k ∉ d.map Prod.fst) : dGet (mergeExtra p (.dict d)) k = dGet p k := by
  apply dGet_dUpdate_not_mem
  intro hmem
  exact h (filtered_keys_sub hmem).1

lemma dGet_filter_ep (d : List (String × PyVal)) {k : String} (hk : k ≠ "endpoint_path") :
    dGet (d.filter (fun kv => kv.1 ≠ "endpoint_path")) k = dGet d k := by
  induction d with
  | nil => rfl
  | cons hd t ih =>
    obtain ⟨k₀, v₀⟩ := hd
    rw [List.filter_cons]
    by_cases h₀ : k₀ = "endpoint_path"
    · subst h₀
      rw [if_neg (by simp)]
      rw [ih]
      rw [show dGet (("endpoint_path", v₀) :: t) k
            = if "endpoint_path" = k then some v₀ else dGet t k from rfl,
          if_neg (fun hh => hk hh.symm)]
    · rw [if_pos (by simpa using h₀)]
      by_cases hk₀ : k₀ = k
      · subst hk₀
        rw [show dGet ((k₀, v₀) :: List.filter (fun kv => decide (kv.1 ≠ "endpoint_path")) t) k₀
              = some v₀ from by simp [dGet],
            show dGet ((k₀, v₀) :: t) k₀ = some v₀ from by simp [dGet]]
      · rw [show dGet ((k₀, v₀) :: List.filter (fun kv => decide (kv.1 ≠ "endpoint_path")) t) k
              = dGet (List.filter (fun kv => decide (kv.1 ≠ "endpoint_path")) t) k from by
                simp [dGet, hk₀],
            ih,
            show dGet ((k₀, v₀) :: t) k = dGet t k from by simp [dGet, hk₀]]

lemma dGet_mergeExtra_mem (p d : List (String × PyVal)) {k : String}
    (hnd : (d.map Prod.fst).Nodup) (hk : k ∈ d.map Prod.fst)
    (hne : k ≠ "endpoint_path") :
    dGet (mergeExtra p (.dict d)) k = dGet d k := by
  show dGet (dUpdate p (d.filter (fun kv => kv.1 ≠ "endpoint_path"))) k = dGet d k
  rw [dGet_dUpdate_mem]
  · exact dGet_filter_ep d hne
  · exact hnd.sublist ((List.filter_sublist _).map _)
  · obtain ⟨kv, hmem, hfst⟩ := List.mem_map.mp hk
    refine List.mem_map.mpr ⟨kv, List.mem_filter.mpr ⟨hmem, ?_⟩, hfst⟩
    subst hfst
    simpa using hne

/-! ### Shared concrete-environment helpers for witnesses -/

/-- A settings table from an explicit association list; unset names give
`PyVal.none`, as Newelle does for unset settings. -/
def settingsOf (l : List (String × PyVal)) : Settings := fun k => (l.lookup k).getD .none

/-- A simple environment: fixed prompt, no message id, a constant network
response, and a decoder that always succeeds. -/
def mkEnv (s : Settings) (pr : PostResult) : GenEnv :=
  { settings := s, prompt := "a cat", msg_uuid := Option.none,
    cacheDir := "/ext/generated_images", post := fun _ _ => pr, b64Ok := fun _ => true }

/-- The URL component of a `.go` build outcome. -/
def goUrlOf : BuildOutcome → String
  | .go u _ => u
  | _ => ""

/-- The payload component of a `.go` build outcome. -/
def goPlOf : BuildOutcome → List (String × PyVal)
  | .go _ pl => pl
  | _ => []

lemma posted_to_go {env : GenEnv} {u : String} {pl : List (String × PyVal)}
    (hpost : (generateImage env).posted = some (u, pl)) :
    computePayloadAndUrl env = .go u pl := by
  have h := generateImage_posted env
  rw [hpost] at h
  cases hc : computePayloadAndUrl env <;> rw [hc] at h
  · exact absurd h (by simp)
  · exact absurd h (by simp)
  · simp only [Option.some.injEq, Prod.mk.injEq] at h
    rw [h.1, h.2]

def envC1 : GenEnv :=
  mkEnv (settingsOf [("seed", PyVal.str "5"),
                     ("extra_payload", PyVal.str "\x7b\"reuse_seed\": false\x7d")])
        (.resp 200 "" (.ok .none))

/-- C1 (counterexample): the claim that a seed parsing to an integer
at least 0 forces `reuse_seed = true` in the outgoing payload "for all
values of the other settings, including any user-supplied extra_payload
overlay" is false as stated: with seed `"5"` and an extra_payload JSON
object carrying `reuse_seed: false`, the overlay of line 439 runs after
`reuse_seed` is computed (line 404) and the dispatched payload carries
`reuse_seed = False`. -/
theorem spec_C1_counterexample :
    seedOf envC1.settings = 5 ∧
    ((generateImage envC1).posted.map (fun p => dGet p.2 "reuse_seed"))
      = some (some (PyVal.bool false)) ∧
    PyVal.bool false ≠ PyVal.bool true := by
  refine ⟨rfl, rfl, ?_⟩
  intro h
  exact Bool.noConfusion (PyVal.bool.inj h)

/-- C1 (amended): if the effective seed setting parses to an integer
at least 0, then the JSON payload sent in the HTTP POST has
`reuse_seed = true`, for all values of the other settings, provided the
user-supplied extra_payload object does not itself contain a
`reuse_seed` key (the last-wins overlay of line 439 can override it, as
the counterexample shows). -/
theorem spec_C1 (env : GenEnv) (u : String) (pl d : List (String × PyVal))
    (hseed : 0 ≤ seedOf env.settings)
    (hextra : extraPayloadOf env.settings = .dict d)
    (hnr : "reuse_seed" ∉ d.map Prod.fst)
    (hpost : (generateImage env).posted = some (u, pl)) :
    dGet pl "reuse_seed" = some (PyVal.bool true) := by
  obtain ⟨ep, tpl, im, hep, htpl, him, hu, hpl⟩ :=
    computePayloadAndUrl_go_spec (posted_to_go hpost)
  subst hpl
  rw [hextra, dGet_mergeExtra_not_mem _ _ hnr,
      dGet_attachExtras_other _ _ _ _ (by decide) (by decide) (by decide),
      dGet_buildPayload_reuse]
  have hne : (seedOf env.settings != -1) = true := by
    simp only [bne_iff_ne, ne_eq]
    omega
  rw [hne, Bool.true_or]

def envW1 : GenEnv := mkEnv (settingsOf [("seed", PyVal.str "5")]) (.resp 200 "" (.ok .none))

/-- Witness for C1 at a concrete environment with seed `"5"` and no
extras. -/
theorem spec_C1_witness :
    dGet (((generateImage envW1).posted.getD ("", [])).2) "reuse_seed"
      = some (PyVal.bool true) := by
  have hpost : (generateImage envW1).posted
      = some ((((generateImage envW1).posted.getD ("", [])).1),
              (((generateImage envW1).posted.getD ("", [])).2)) := rfl
  exact spec_C1 envW1 _ _ [] (by decide) rfl (by simp) hpost

/-- "The images shape was the one consumed." -/
def consumesImages : NormShape → Bool
  | .imagesList _ => true
  | _ => false

def cexC2 : PyVal := .dict [("images", PyVal.list []), ("image", PyVal.str "abc")]

/-- C2 (counterexample): the claim "if a well-typed images key is
present it is always the shape consumed" is false as stated: for a
response whose `images` key holds the empty list and whose `image` key
holds a string, the `images` key is present with its recognized type (a
list), yet the empty list fails the truthiness test of line 452 and the
single-image shape is consumed instead. -/
theorem spec_C2_counterexample :
    dGet [("images", PyVal.list []), ("image", PyVal.str "abc")] "images"
      = some (PyVal.list []) ∧
    consumesImages (normalizeResponse cexC2) = false ∧
    normalizeResponse cexC2 = .singleImage "abc" := ⟨rfl, rfl, rfl⟩

/-- C2 (amended): the normalizer consumes exactly one response shape
(it is a function into the five-valued `NormShape`), choosing by the
fixed priority non-empty-image-list over single-image over URL over
file-path whenever more than one of the keys `images`, `image`,
`image_url`, `file_path` is present with its recognized type; a
non-empty `images` list is always the shape consumed, while an empty,
though well-typed, `images` list is skipped, as the counterexample
shows. -/
theorem spec_C2 (d : List (String × PyVal)) :
    (∀ x l, dGet d "images" = some (.list (x :: l)) →
        normalizeResponse (.dict d) = .imagesList x) ∧
    ((∀ x l, dGet d "images" ≠ some (.list (x :: l))) →
      (∀ s, dGet d "image" = some (.str s) → normalizeResponse (.dict d) = .singleImage s) ∧
      ((∀ s, dGet d "image" ≠ some (.str s)) →
        (∀ uu, dGet d "image_url" = some (.str uu) →
            normalizeResponse (.dict d) = .imageUrl uu) ∧
        ((∀ uu, dGet d "image_url" ≠ some (.str uu)) →
          ∀ pp, dGet d "file_path" = some (.str pp) →
            normalizeResponse (.dict d) = .filePath pp))) := by
  have himg : (∀ x l, dGet d "images" ≠ some (.list (x :: l))) →
      imagesHead (.dict d) = Option.none := by
    intro h
    simp only [imagesHead]
  have hstr : ∀ k, (∀ s, dGet d k ≠ some (.str s)) → strKey (.dict d) k = Option.none := by
    intro k h
    simp only [strKey]
  refine ⟨?_, fun h1 => ⟨?_, fun h2 => ⟨?_, fun h3 => ?_⟩⟩⟩
  · intro x l h
    simp only [normalizeResponse]
    rw [show imagesHead (.dict d) = some x from by simp [imagesHead, h]]
  · intro s h
    simp only [normalizeResponse]
    rw [himg h1, show strKey (.dict d) "image" = some s from by simp [strKey, h]]
  · intro uu h
    simp only [normalizeResponse]
    rw [himg h1, hstr _ h2,
        show strKey (.dict d) "image_url" = some uu from by simp [strKey, h]]
  · intro pp h
    simp only [normalizeResponse]
    rw [himg h1, hstr _ h2, hstr _ h3,
        show strKey (.dict d) "file_path" = some pp from by simp [strKey, h]]

/-- Witness for C2 at a concrete response carrying both a non-empty
`images` list and an `image` string. -/
theorem spec_C2_witness :
    normalizeResponse (.dict [("images", PyVal.list [PyVal.str "A"]), ("image", PyVal.str "B")])
      = .imagesList (PyVal.str "A") :=
  (spec_C2 _).1 (PyVal.str "A") [] rfl

/-- C3: whenever the `img2img_enabled` setting is on (per the line
418-421 test) and the `img2img_image` setting is empty or
whitespace-only, the request is rejected client-side: the error message
of line 424 is surfaced, the loading state is reset, no HTTP POST is
dispatched, and no image or cache file is produced.  The typing
hypotheses say the relevant entry settings hold strings (as Newelle
entry settings do), so no unrelated exception fires first. -/
theorem spec_C3 (env : GenEnv) (d : List (String × PyVal)) (tpl im : String)
    (hextra : extraPayloadOf env.settings = .dict d)
    (htpl : pyOr (env.settings "positive-prompt") (.str "[input]") = .str tpl)
    (him : pyOr (env.settings "img2img_image") (.str "") = .str im)
    (hon : img2imgEnabledOf env.settings = true)
    (hempty : pyStrip im = "") :
    (generateImage env).printedError
      = some "[LightDiffusionExtension] Error: Img2Img is enabled but no image path is set in Advanced Settings." ∧
    (generateImage env).loadingShown = some false ∧
    (generateImage env).posted = Option.none ∧
    (generateImage env).imageSet = Option.none ∧
    (generateImage env).cacheWritten = Option.none := by
  have hstep : computePayloadAndUrl env
      = if img2imgEnabledOf env.settings = true ∧ pyStrip im = "" then
          BuildOutcome.reject "Img2Img is enabled but no image path is set in Advanced Settings."
        else
          BuildOutcome.go
            (rstripSlashes (pyStr (pyOr (env.settings "url") (PyVal.str "http://localhost:7861")))
              ++ pyStr ((dGet d "endpoint_path").getD (PyVal.str "/api/generate")))
            (mergeExtra
              (attachExtras
                (buildPayload env.settings (tpl.replace "[input]" env.prompt)
                  (pyOr (env.settings "negative-prompt") (PyVal.str "")) (widthOf env.settings)
                  (heightOf env.settings) (seedOf env.settings))
                (stepsOf env.settings) (gsOf env.settings) (seedOf env.settings))
              (PyVal.dict d)) := by
    simp only [computePayloadAndUrl]
    rw [hextra, htpl, him]
    rfl
  have hrej : computePayloadAndUrl env
      = .reject "Img2Img is enabled but no image path is set in Advanced Settings." := by
    rw [hstep, if_pos ⟨hon, hempty⟩]
  have hgi : generateImage env
      = showErrorMsg "Img2Img is enabled but no image path is set in Advanced Settings." {} := by
    unfold generateImage generateImageBody
    rw [hrej]
    rfl
  rw [hgi]
  exact ⟨rfl, rfl, rfl, rfl, rfl⟩

def envW3 : GenEnv :=
  mkEnv (settingsOf [("img2img_enabled", PyVal.int 1)]) (.resp 200 "" (.ok .none))

/-- Witness for C3 at a concrete environment with `img2img_enabled = 1`
and an unset image path. -/
theorem spec_C3_witness :
    (generateImage envW3).printedError
      = some "[LightDiffusionExtension] Error: Img2Img is enabled but no image path is set in Advanced Settings." ∧
    (generateImage envW3).posted = Option.none :=
  ⟨(spec_C3 envW3 [] "[input]" "" rfl rfl rfl rfl rfl).1,
   (spec_C3 envW3 [] "[input]" "" rfl rfl rfl rfl rfl).2.2.1⟩

/-- C4: for every response JSON value in which none of the four
interpretations match (no `images` key holding a non-empty list, no
string-valued `image`, `image_url` or `file_path` key), the normalizer
falls through to the generic "Unexpected response format from backend."
error (line 481): the message is printed, the loading state is reset,
no image is set on the widget and no cache file is written. -/
theorem spec_C4 (env : GenEnv) (u : String) (pl : List (String × PyVal))
    (status : Int) (text : String) (data : PyVal)
    (hgo : computePayloadAndUrl env = .go u pl)
    (hpost : env.post u pl = .resp status text (.ok data))
    (hok : respOk status = true)
    (h1 : imagesHead data = Option.none)
    (h2 : strKey data "image" = Option.none)
    (h3 : strKey data "image_url" = Option.none)
    (h4 : strKey data "file_path" = Option.none) :
    normalizeResponse data = .unexpected ∧
    (generateImage env).printedError
      = some "[LightDiffusionExtension] Error: Unexpected response format from backend." ∧
    (generateImage env).loadingShown = some false ∧
    (generateImage env).imageSet = Option.none ∧
    (generateImage env).cacheWritten = Option.none := by
  have hnorm : normalizeResponse data = .unexpected := by
    simp only [normalizeResponse]
    rw [h1, h2, h3, h4]
  have hbody : generateImage env = runBody (postStage env u pl) := by
    unfold generateImage generateImageBody
    rw [hgo]
  have hps : postStage env u pl
      = if respOk status = true then respStage env { posted := some (u, pl) } data
        else BodyOut.ret (showErrorMsg ("HTTP " ++ toString status ++ ": " ++ text.take 200)
          { posted := some (u, pl) }) := by
    simp only [postStage]
    rw [hpost]
  have hrs : respStage env { posted := some (u, pl) } data
      = BodyOut.ret (showErrorMsg "Unexpected response format from backend."
          { posted := some (u, pl) }) := by
    simp only [respStage]
    rw [hnorm]
  have hgi : generateImage env
      = showErrorMsg "Unexpected response format from backend." { posted := some (u, pl) } := by
    rw [hbody, hps, if_pos hok, hrs]
    rfl
  rw [hgi]
  exact ⟨hnorm, rfl, rfl, rfl, rfl⟩

def envW4 : GenEnv :=
  mkEnv (settingsOf []) (.resp 200 "" (.ok (.dict [("weird", PyVal.int 1)])))

/-- Witness for C4 at a concrete environment whose backend answers with
a JSON object under an unrecognized key. -/
theorem spec_C4_witness :
    (generateImage envW4).printedError
      = some "[LightDiffusionExtension] Error: Unexpected response format from backend." ∧
    (generateImage envW4).imageSet = Option.none := by
  have hgo : computePayloadAndUrl envW4
      = .go (goUrlOf (computePayloadAndUrl envW4)) (goPlOf (computePayloadAndUrl envW4)) := rfl
  have h := spec_C4 envW4 _ _ 200 "" (.dict [("weird", PyVal.int 1)]) hgo rfl rfl rfl rfl rfl rfl
  exact ⟨h.2.1, h.2.2.2.1⟩

/-- C5 (counterexample): prompt extraction is not idempotent for every
prompt string: for the prompt `"generateimage x"` in the tag-prefixed
body shape, the extractor returns `"generateimage x"`, and re-applying
it to that output (as body, with empty info string) strips the
recognized tag again and returns `"x"`. -/
theorem spec_C5_counterexample :
    extractPrompt (some ("generateimage " ++ "generateimage x")) (some "") = "generateimage x" ∧
    extractPrompt (some "generateimage x") (some "") = "x" ∧
    ("x" : String) ≠ "generateimage x" := ⟨by decide, by decide, by decide⟩

/-- C5 (amended): for every prompt string that is already stripped, does
not begin with triple backticks or a recognized tag prefix, and (for the
one-liner info-string shape) contains no newline, all three supported
input shapes (multi-line fenced body, one-liner info string,
tag-prefixed body) extract exactly the prompt, and applying
`_extract_prompt_from_block` to its own output (as body, with empty info
string) returns the same string; the restriction to non-tag-leading
prompts is forced by the counterexample. -/
theorem spec_C5 (p : String)
    (hps : pyStrip p = p)
    (h2 : ticks.isPrefixOf p.data = false)
    (h3a : tagMatch "generateimage".data p.data = false)
    (h3b : tagMatch "lightdiffusion".data p.data = false)
    (hnl : p.data.contains '\n' = false) :
    (extractPrompt (some ("```generateimage\n" ++ p ++ "\n```")) (some "") = p) ∧
    (extractPrompt (some "") (some ("generateimage " ++ p)) = p) ∧
    (extractPrompt (some ("generateimage " ++ p)) (some "") = p) ∧
    (extractPrompt (some p) (some "") = p) ∧
    (extractPrompt (some (extractPrompt (some ("```generateimage\n" ++ p ++ "\n```")) (some ""))) (some "")
       = extractPrompt (some ("```generateimage\n" ++ p ++ "\n```")) (some "")) ∧
    (extractPrompt (some (extractPrompt (some "") (some ("generateimage " ++ p)))) (some "")
       = extractPrompt (some "") (some ("generateimage " ++ p))) ∧
    (extractPrompt (some (extractPrompt (some ("generateimage " ++ p)) (some ""))) (some "")
       = extractPrompt (some ("generateimage " ++ p)) (some "")) := by
  have hp : stripChars p.data = p.data := congrArg String.data hps
  have main :
      (extractPrompt (some ("```generateimage\n" ++ p ++ "\n```")) (some "") = p) ∧
      (extractPrompt (some "") (some ("generateimage " ++ p)) = p) ∧
      (extractPrompt (some ("generateimage " ++ p)) (some "") = p) ∧
      (extractPrompt (some p) (some "") = p) := by
    by_cases hpe : p = ""
    · subst hpe
      exact ⟨by decide, by decide, by decide, by decide⟩
    · have hne : p.data ≠ [] := by
        intro h
        apply hpe
        cases p
        simp_all
      refine ⟨?_, ?_, ?_, ?_⟩
      · show String.mk (extractChars ("```generateimage\n" ++ p ++ "\n```").data ("" : String).data) = p
        rw [show ("```generateimage\n" ++ p ++ "\n```").data
            = "```generateimage\n".data ++ p.data ++ "\n```".data by simp [String.data_append],
            show ("" : String).data = [] from rfl,
            extractChars_shape1 hp h2 h3b hne]
      · show String.mk (extractChars ("" : String).data ("generateimage " ++ p).data) = p
        rw [show ("generateimage " ++ p).data = "generateimage ".data ++ p.data by
              simp [String.data_append],
            show ("" : String).data = [] from rfl,
            extractChars_shape2 hp hnl hne]
      · show String.mk (extractChars ("generateimage " ++ p).data ("" : String).data) = p
        rw [show ("generateimage " ++ p).data = "generateimage ".data ++ p.data by
              simp [String.data_append],
            show ("" : String).data = [] from rfl,
            extractChars_shape3 hp h2 h3b hne]
      · show String.mk (extractChars p.data ("" : String).data) = p
        rw [show ("" : String).data = [] from rfl, extractChars_clean hp h2 h3a h3b]
  obtain ⟨m1, m2, m3, m4⟩ := main
  refine ⟨m1, m2, m3, m4, ?_, ?_, ?_⟩
  · rw [m1, m4]
  · rw [m2, m4]
  · rw [m3, m4]

/-- Witness for C5 at the concrete prompt `"a cat"`. -/
theorem spec_C5_witness :
    pyStrip "a cat" = "a cat" ∧
    extractPrompt (some ("generateimage " ++ "a cat")) (some "") = "a cat" ∧
    extractPrompt (some (extractPrompt (some ("generateimage " ++ "a cat")) (some ""))) (some "")
      = extractPrompt (some ("generateimage " ++ "a cat")) (some "") :=
  ⟨by decide,
   (spec_C5 "a cat" (by decide) (by decide) (by decide) (by decide) (by decide)).2.2.1,
   (spec_C5 "a cat" (by decide) (by decide) (by decide) (by decide) (by decide)).2.2.2.2.2.2⟩

lemma boolFromStr_fallback (tt : String) (dflt : Bool)
    (hT : ¬ (String.mk (lowerChars (stripChars tt.data)) = "true" ∨
         String.mk (lowerChars (stripChars tt.data)) = "yes" ∨
         String.mk (lowerChars (stripChars tt.data)) = "on" ∨
         String.mk (lowerChars (stripChars tt.data)) = "1"))
    (hF : ¬ (String.mk (lowerChars (stripChars tt.data)) = "false" ∨
         String.mk (lowerChars (stripChars tt.data)) = "no" ∨
         String.mk (lowerChars (stripChars tt.data)) = "off" ∨
         String.mk (lowerChars (stripChars tt.data)) = "0")) :
    boolFromStr tt dflt = dflt := by
  unfold boolFromStr
  rw [if_neg hT, if_neg hF]

lemma get_bool_str_to_fallback (s : Settings) (name : String) (dflt : Bool) (t : String)
    (hv : s name = .str t) (hparse : pyIntOfStr t = Option.none) :
    get_bool s name dflt = boolFromStr t dflt := by
  unfold get_bool
  rw [hv]
  show (match pyInt (PyVal.str t) with
        | some n => n != 0
        | Option.none => boolFromStr (pyStr (PyVal.str t)) dflt) = boolFromStr t dflt
  have hparse2 : pyInt (PyVal.str t) = Option.none := hparse
  rw [hparse2]
  rfl

/-- C6 (amended): for every combination of settings values, including
malformed (unparsable) numeric settings, the request builder produces a
payload that contains exactly the 23 documented keys (prompt,
negative_prompt, width, height and the toggle/value keys), and each
malformed numeric setting is replaced by the builder fallback default,
which coincides with the settings-schema default everywhere except
`multiscale_intermittent` (schema default on, fallback off), as the
counterexample shows; malformed `steps`/`guidance_scale` are omitted
rather than defaulted and a malformed `seed` becomes -1. -/
theorem spec_C6 (s : Settings) (positive : String) (negative : PyVal)
    (width height seed : Int) :
    ((buildPayload s positive negative width height seed).map Prod.fst = payloadKeys) ∧
    (∀ k, k ∈ payloadKeys → (dGet (buildPayload s positive negative width height seed) k).isSome) ∧
    (pyInt (s "width") = Option.none → widthOf s = 512) ∧
    (pyInt (s "height") = Option.none → heightOf s = 512) ∧
    (∀ name dflt, pyInt (s name) = Option.none → get_int s name dflt = dflt) ∧
    (∀ name dflt, pyFloat (s name) = Option.none → get_float s name dflt = dflt) ∧
    (∀ name dflt t, s name = .str t → pyIntOfStr t = Option.none →
      ¬ (String.mk (lowerChars (stripChars t.data)) = "true" ∨
         String.mk (lowerChars (stripChars t.data)) = "yes" ∨
         String.mk (lowerChars (stripChars t.data)) = "on" ∨
         String.mk (lowerChars (stripChars t.data)) = "1") →
      ¬ (String.mk (lowerChars (stripChars t.data)) = "false" ∨
         String.mk (lowerChars (stripChars t.data)) = "no" ∨
         String.mk (lowerChars (stripChars t.data)) = "off" ∨
         String.mk (lowerChars (stripChars t.data)) = "0") →
      get_bool s name dflt = dflt) ∧
    (dGet (buildPayload s positive negative width height seed) "num_images"
       = some (.int (get_int s "num_images" 1))) ∧
    (dGet (buildPayload s positive negative width height seed) "batch_size"
       = some (.int (get_int s "batch_size" 1))) ∧
    (dGet (buildPayload s positive negative width height seed) "multiscale_factor"
       = some (.float (get_float s "multiscale_factor" (1/2)))) ∧
    (dGet (buildPayload s positive negative width height seed) "multiscale_fullres_start"
       = some (.int (get_int s "multiscale_fullres_start" 3))) ∧
    (dGet (buildPayload s positive negative width height seed) "multiscale_fullres_end"
       = some (.int (get_int s "multiscale_fullres_end" 8))) ∧
    (dGet (buildPayload s positive negative width height seed) "hires_fix"
       = some (.bool (get_bool s "hires_fix" false))) ∧
    (dGet (buildPayload s positive negative width height seed) "adetailer"
       = some (.bool (get_bool s "adetailer" false))) ∧
    (dGet (buildPayload s positive negative width height seed) "enhance_prompt"
       = some (.bool (get_bool s "enhance_prompt" false))) ∧
    (dGet (buildPayload s positive negative width height seed) "img2img_enabled"
       = some (.bool (get_bool s "img2img_enabled" false))) ∧
    (dGet (buildPayload s positive negative width height seed) "stable_fast"
       = some (.bool (get_bool s "stable_fast" false))) ∧
    (dGet (buildPayload s positive negative width height seed) "flux_enabled"
       = some (.bool (get_bool s "flux_enabled" false))) ∧
    (dGet (buildPayload s positive negative width height seed) "prio_speed"
       = some (.bool (get_bool s "prio_speed" false))) ∧
    (dGet (buildPayload s positive negative width height seed) "realistic_model"
       = some (.bool (get_bool s "realistic_model" false))) ∧
    (dGet (buildPayload s positive negative width height seed) "multiscale_enabled"
       = some (.bool (get_bool s "multiscale_enabled" true))) ∧
    (dGet (buildPayload s positive negative width height seed) "multiscale_intermittent"
       = some (.bool (get_bool s "multiscale_intermittent" false))) ∧
    (dGet (buildPayload s positive negative width height seed) "keep_models_loaded"
       = some (.bool (get_bool s "keep_models_loaded" true))) ∧
    (dGet (buildPayload s positive negative width height seed) "enable_preview"
       = some (.bool (get_bool s "enable_preview" false))) := by
  refine ⟨rfl, ?_, ?_, ?_, ?_, ?_, ?_,
          rfl, rfl, rfl, rfl, rfl, rfl, rfl, rfl, rfl, rfl, rfl, rfl, rfl, rfl, rfl, rfl, rfl⟩
  · intro k hk
    apply dGet_isSome_of_mem_keys
    rw [buildPayload_keys]
    exact hk
  · intro h
    unfold widthOf
    rw [h]
    rfl
  · intro h
    unfold heightOf
    rw [h]
    rfl
  · intro name dflt h
    unfold get_int
    cases hv : s name <;> rw [hv] at h <;> simp [h]
  · intro name dflt h
    unfold get_float
    cases hv : s name <;> rw [hv] at h <;> simp [h]
  · intro name dflt t hv hparse hT hF
    rw [get_bool_str_to_fallback s name dflt t hv hparse]
    exact boolFromStr_fallback t dflt hT hF

def sC6 : Settings := settingsOf [("multiscale_intermittent", PyVal.str "xyz")]

/-- C6 (counterexample): the claim "each malformed numeric setting is
replaced by its documented default" fails for `multiscale_intermittent`:
its documented default in the settings schema (lines 219-227) is 1
(on), but for the malformed value `"xyz"` the builder fallback
(line 409) puts `False` into the payload. -/
theorem spec_C6_counterexample :
    pyIntOfStr "xyz" = Option.none ∧
    pyFloatOfStr "xyz" = Option.none ∧
    dGet (buildPayload sC6 "p" (PyVal.str "n") 512 512 (-1)) "multiscale_intermittent"
      = some (PyVal.bool false) ∧
    PyVal.bool false ≠ PyVal.bool true := by
  refine ⟨rfl, rfl, rfl, ?_⟩
  intro h
  exact Bool.noConfusion (PyVal.bool.inj h)

def sW6 : Settings :=
  settingsOf [("width", PyVal.str "abc"), ("multiscale_factor", PyVal.str "zz"),
              ("num_images", PyVal.str "many")]

/-- Witness for C6 at concrete malformed numeric settings. -/
theorem spec_C6_witness :
    widthOf sW6 = 512 ∧
    get_float sW6 "multiscale_factor" (1/2) = 1/2 ∧
    get_int sW6 "num_images" 1 = 1 ∧
    (buildPayload sW6 "p" (PyVal.str "n") (widthOf sW6) (heightOf sW6) (-1)).map Prod.fst
      = payloadKeys :=
  ⟨(spec_C6 sW6 "p" (PyVal.str "n") 512 512 (-1)).2.2.1 rfl,
   (spec_C6 sW6 "p" (PyVal.str "n") 512 512 (-1)).2.2.2.2.2.1 "multiscale_factor" (1/2) rfl,
   (spec_C6 sW6 "p" (PyVal.str "n") 512 512 (-1)).2.2.2.2.1 "num_images" 1 rfl,
   (spec_C6 sW6 "p" (PyVal.str "n") (widthOf sW6) (heightOf sW6) (-1)).1⟩

/-- C7: for every parseable extra_payload JSON object, the final
outgoing payload maps each key of extra_payload other than
`endpoint_path` to the extra_payload value (last-key-wins over the
built payload), leaves keys absent from extra_payload at their built
values, and the dispatched payload never contains an `endpoint_path`
key. -/
theorem spec_C7 (built d : List (String × PyVal)) (hnd : (d.map Prod.fst).Nodup) :
    (∀ k, k ∈ d.map Prod.fst → k ≠ "endpoint_path" →
        dGet (mergeExtra built (.dict d)) k = dGet d k) ∧
    (∀ k, k ∉ d.map Prod.fst → dGet (mergeExtra built (.dict d)) k = dGet built k) ∧
    (∀ env : GenEnv, ∀ u pl, (generateImage env).posted = some (u, pl) →
        dGet pl "endpoint_path" = Option.none) := by
  refine ⟨?_, ?_, ?_⟩
  · intro k hk hne
    exact dGet_mergeExtra_mem built d hnd hk hne
  · intro k hk
    exact dGet_mergeExtra_not_mem built d hk
  · intro env u pl hpost
    obtain ⟨ep, tpl, im, hep, htpl, him, hu, hpl⟩ :=
      computePayloadAndUrl_go_spec (posted_to_go hpost)
    subst hpl
    rw [dGet_mergeExtra_ep,
        dGet_attachExtras_other _ _ _ _ (by decide) (by decide) (by decide),
        dGet_buildPayload_ep]

def builtW7 : List (String × PyVal) := [("width", PyVal.int 512), ("reuse_seed", PyVal.bool false)]
def dW7 : List (String × PyVal) := [("width", PyVal.int 7), ("fancy", PyVal.str "v")]
def envW7 : GenEnv :=
  mkEnv (settingsOf [("extra_payload", PyVal.str "\x7b\"endpoint_path\": \"/gen\", \"a\": 1\x7d")])
        (.resp 200 "" (.ok .none))

/-- Witness for C7 at a concrete built payload, overlay and
environment. -/
theorem spec_C7_witness :
    dGet (mergeExtra builtW7 (.dict dW7)) "width" = some (PyVal.int 7) ∧
    dGet (mergeExtra builtW7 (.dict dW7)) "reuse_seed" = some (PyVal.bool false) ∧
    dGet (((generateImage envW7).posted.getD ("", [])).2) "endpoint_path" = Option.none := by
  refine ⟨?_, ?_, ?_⟩
  · rw [(spec_C7 builtW7 dW7 (by decide)).1 "width" (by decide) (by decide)]
    rfl
  · rw [(spec_C7 builtW7 dW7 (by decide)).2.1 "reuse_seed" (by decide)]
    rfl
  · exact (spec_C7 builtW7 dW7 (by decide)).2.2 envW7 _ _ rfl

def envC8 : GenEnv := mkEnv (settingsOf [("url", PyVal.str "http://x/")]) (.resp 200 "" (.ok .none))

/-- C8 (counterexample): the claim that the POST is sent to the
concatenation of the url setting and the endpoint path is false as
stated: for the url setting `"http://x/"` the code first strips trailing
slashes (line 306), so the POST goes to `"http://x/api/generate"`, not
to the claimed concatenation `"http://x/" ++ "/api/generate"`. -/
theorem spec_C8_counterexample :
    envC8.settings "url" = PyVal.str "http://x/" ∧
    (generateImage envC8).posted.map Prod.fst = some "http://x/api/generate" ∧
    ("http://x/api/generate" : String) ≠ "http://x/" ++ "/api/generate" :=
  ⟨rfl, rfl, by decide⟩

/-- C8 (amended): every dispatched HTTP POST goes to the concatenation
of `base_url` and `endpoint_path`, where `base_url` is the url setting
(or its default when falsy) with trailing slashes stripped, and
`endpoint_path` is the (stringified) `endpoint_path` value of the parsed
extra_payload when present and `"/api/generate"` otherwise. -/
theorem spec_C8 (env : GenEnv) (u : String) (pl : List (String × PyVal))
    (hpost : (generateImage env).posted = some (u, pl)) :
    ∃ ep, endpointOf (extraPayloadOf env.settings) = .ok ep ∧
      ep = (match extraPayloadOf env.settings with
            | .dict d => (dGet d "endpoint_path").getD (.str "/api/generate")
            | _ => .str "/api/generate") ∧
      u = rstripSlashes (pyStr (pyOr (env.settings "url") (.str "http://localhost:7861")))
          ++ pyStr ep := by
  obtain ⟨ep, tpl, im, hep, htpl, him, hu, hpl⟩ :=
    computePayloadAndUrl_go_spec (posted_to_go hpost)
  refine ⟨ep, hep, ?_, hu⟩
  cases hx : extraPayloadOf env.settings <;> rw [hx] at hep <;>
    first
      | exact Except.noConfusion hep
      | (simp only [endpointOf, Except.ok.injEq] at hep
         exact hep.symm)

def envW8 : GenEnv :=
  mkEnv (settingsOf [("url", PyVal.str "http://x/"),
                     ("extra_payload", PyVal.str "\x7b\"endpoint_path\": \"/gen\"\x7d")])
        (.resp 200 "" (.ok .none))

/-- Witness for C8 at a concrete environment with a trailing-slash url
and an endpoint override. -/
theorem spec_C8_witness :
    (generateImage envW8).posted.map Prod.fst = some "http://x/gen" := by
  have hpost : (generateImage envW8).posted
      = some ((((generateImage envW8).posted.getD ("", [])).1),
              (((generateImage envW8).posted.getD ("", [])).2)) := rfl
  obtain ⟨ep, hep, hepval, hu⟩ := spec_C8 envW8 _ _ hpost
  have hepc : ep = PyVal.str "/gen" := by
    rw [hepval]
    rfl
  rw [hpost]
  show some ((((generateImage envW8).posted.getD ("", [])).1)) = some "http://x/gen"
  rw [hu, hepc]
  decide

lemma gi_eq_postStage {env : GenEnv} {u : String} {pl : List (String × PyVal)}
    (hgo : computePayloadAndUrl env = .go u pl) :
    generateImage env = runBody (postStage env u pl) := by
  unfold generateImage generateImageBody
  rw [hgo]

lemma postStage_raise_eq {env : GenEnv} {u : String} {pl : List (String × PyVal)} {m : String}
    (hpost : env.post u pl = .raise m) :
    postStage env u pl = .exn m { posted := some (u, pl) } := by
  simp only [postStage]
  rw [hpost]

lemma postStage_resp_eq {env : GenEnv} {u : String} {pl : List (String × PyVal)}
    {status : Int} {text : String} {jb : Except String PyVal}
    (hpost : env.post u pl = .resp status text jb) :
    postStage env u pl
      = if respOk status = true then
          (match jb with
           | Except.error m => BodyOut.exn m { posted := some (u, pl) }
           | Except.ok data => respStage env { posted := some (u, pl) } data)
        else BodyOut.ret (showErrorMsg ("HTTP " ++ toString status ++ ": " ++ text.take 200)
            { posted := some (u, pl) }) := by
  cases jb with
  | error m =>
    simp only [postStage]
    rw [hpost]
  | ok data =>
    simp only [postStage]
    rw [hpost]

lemma postStage_ok_eq {env : GenEnv} {u : String} {pl : List (String × PyVal)}
    {status : Int} {text : String} {data : PyVal}
    (hpost : env.post u pl = .resp status text (.ok data)) :
    postStage env u pl
      = if respOk status = true then respStage env { posted := some (u, pl) } data
        else BodyOut.ret (showErrorMsg ("HTTP " ++ toString status ++ ": " ++ text.take 200)
            { posted := some (u, pl) }) := by
  simp only [postStage]
  rw [hpost]

lemma postStage_err_eq {env : GenEnv} {u : String} {pl : List (String × PyVal)}
    {status : Int} {text : String} {m : String}
    (hpost : env.post u pl = .resp status text (.error m)) :
    postStage env u pl
      = if respOk status = true then BodyOut.exn m { posted := some (u, pl) }
        else BodyOut.ret (showErrorMsg ("HTTP " ++ toString status ++ ": " ++ text.take 200)
            { posted := some (u, pl) }) := by
  simp only [postStage]
  rw [hpost]

lemma respStage_unexpected_eq {env : GenEnv} {ev : GenResult} {data : PyVal}
    (h : normalizeResponse data = .unexpected) :
    respStage env ev data = .ret (showErrorMsg "Unexpected response format from backend." ev) := by
  simp only [respStage]
  rw [h]

lemma respStage_single_eq {env : GenEnv} {ev : GenResult} {data : PyVal} {bs : String}
    (h : normalizeResponse data = .singleImage bs) :
    respStage env ev data
      = saveAndShow env (.str bs) (cacheOutPath env.cacheDir env.msg_uuid) ev := by
  simp only [respStage]
  rw [h]

/-- C9: `generate_image` never propagates an exception to its caller:
the call always returns (never `.raises`), every body exception is
caught by the outer `try/except` and turns into a printed message plus a
loading-state reset, and each of the listed failure modes (HTTP error
status, a raising `requests.post`, malformed response JSON, the missing
image-to-image source rejection, an unrecognized response shape, and
base64-decode/save errors) ends with a printed message and
`show_loading(False)`. -/
theorem spec_C9 (env : GenEnv) :
    (generateImageCall env = .returns (generateImage env)) ∧
    (∀ m, generateImageCall env ≠ .raises m) ∧
    (∀ m ev, generateImageBody env = .exn m ev →
       generateImage env = showErrorMsg m ev ∧
       (generateImage env).printedError = some ("[LightDiffusionExtension] Error: " ++ m) ∧
       (generateImage env).loadingShown = some false) ∧
    (∀ u pl status text jb, computePayloadAndUrl env = .go u pl →
       env.post u pl = .resp status text jb → respOk status = false →
       (generateImage env).printedError
         = some ("[LightDiffusionExtension] Error: "
                  ++ ("HTTP " ++ toString status ++ ": " ++ text.take 200)) ∧
       (generateImage env).loadingShown = some false) ∧
    (∀ u pl m, computePayloadAndUrl env = .go u pl → env.post u pl = .raise m →
       (generateImage env).printedError = some ("[LightDiffusionExtension] Error: " ++ m) ∧
       (generateImage env).loadingShown = some false) ∧
    (∀ u pl status text m, computePayloadAndUrl env = .go u pl →
       env.post u pl = .resp status text (.error m) → respOk status = true →
       (generateImage env).printedError = some ("[LightDiffusionExtension] Error: " ++ m) ∧
       (generateImage env).loadingShown = some false) ∧
    (∀ m, computePayloadAndUrl env = .reject m →
       (generateImage env).printedError = some ("[LightDiffusionExtension] Error: " ++ m) ∧
       (generateImage env).loadingShown = some false) ∧
    (∀ u pl status text data, computePayloadAndUrl env = .go u pl →
       env.post u pl = .resp status text (.ok data) → respOk status = true →
       normalizeResponse data = .unexpected →
       (generateImage env).printedError
         = some "[LightDiffusionExtension] Error: Unexpected response format from backend." ∧
       (generateImage env).loadingShown = some false) ∧
    (∀ u pl status text data bs, computePayloadAndUrl env = .go u pl →
       env.post u pl = .resp status text (.ok data) → respOk status = true →
       normalizeResponse data = .singleImage bs →
       env.b64Ok (dataPrefixSplit bs) = false →
       (generateImage env).printedError
         = some "[LightDiffusionExtension] Error: binascii.Error: invalid base64-encoded string" ∧
       (generateImage env).loadingShown = some false) := by
  have hcall : generateImageCall env = .returns (generateImage env) := by
    unfold generateImageCall generateImage
    cases generateImageBody env <;> rfl
  refine ⟨hcall, ?_, ?_, ?_, ?_, ?_, ?_, ?_, ?_⟩
  · intro m h
    rw [hcall] at h
    exact CallOutcome.noConfusion h
  · intro m ev h
    have hgi : generateImage env = showErrorMsg m ev := by
      unfold generateImage
      rw [h]
      rfl
    rw [hgi]
    exact ⟨rfl, rfl, rfl⟩
  · intro u pl status text jb hgo hpost hok
    have hgi : generateImage env
        = showErrorMsg ("HTTP " ++ toString status ++ ": " ++ text.take 200)
            { posted := some (u, pl) } := by
      rw [gi_eq_postStage hgo, postStage_resp_eq hpost, if_neg (by simp [hok])]
      rfl
    rw [hgi]
    exact ⟨rfl, rfl⟩
  · intro u pl m hgo hpost
    have hgi : generateImage env = showErrorMsg m { posted := some (u, pl) } := by
      rw [gi_eq_postStage hgo, postStage_raise_eq hpost]
      rfl
    rw [hgi]
    exact ⟨rfl, rfl⟩
  · intro u pl status text m hgo hpost hok
    have hgi : generateImage env = showErrorMsg m { posted := some (u, pl) } := by
      rw [gi_eq_postStage hgo, postStage_err_eq hpost, if_pos hok]
      rfl
    rw [hgi]
    exact ⟨rfl, rfl⟩
  · intro m hrej
    have hgi : generateImage env = showErrorMsg m {} := by
      unfold generateImage generateImageBody
      rw [hrej]
      rfl
    rw [hgi]
    exact ⟨rfl, rfl⟩
  · intro u pl status text data hgo hpost hok hnorm
    have hgi : generateImage env
        = showErrorMsg "Unexpected response format from backend." { posted := some (u, pl) } := by
      rw [gi_eq_postStage hgo, postStage_ok_eq hpost, if_pos hok,
          respStage_unexpected_eq hnorm]
      rfl
    rw [hgi]
    exact ⟨rfl, rfl⟩
  · intro u pl status text data bs hgo hpost hok hnorm hb64
    have hgi : generateImage env
        = showErrorMsg "binascii.Error: invalid base64-encoded string"
            { posted := some (u, pl) } := by
      rw [gi_eq_postStage hgo, postStage_ok_eq hpost, if_pos hok, respStage_single_eq hnorm]
      show runBody (saveAndShow env (.str bs) (cacheOutPath env.cacheDir env.msg_uuid)
          { posted := some (u, pl) }) = _
      simp only [saveAndShow]
      rw [hb64]
      rfl
    rw [hgi]
    exact ⟨rfl, rfl⟩

def envW9 : GenEnv := mkEnv (settingsOf []) (.resp 500 "boom" (.error "x"))

/-- Witness for C9 at a concrete environment whose backend answers with
HTTP 500. -/
theorem spec_C9_witness :
    (∀ m, generateImageCall envW9 ≠ .raises m) ∧
    (generateImage envW9).printedError
      = some ("[LightDiffusionExtension] Error: " ++ ("HTTP " ++ toString (500 : Int) ++ ": " ++ ("boom" : String).take 200)) ∧
    (generateImage envW9).loadingShown = some false := by
  have hgo : computePayloadAndUrl envW9
      = .go (goUrlOf (computePayloadAndUrl envW9)) (goPlOf (computePayloadAndUrl envW9)) := rfl
  have h4 := (spec_C9 envW9).2.2.2.1 _ _ 500 "boom" (.error "x") hgo rfl rfl
  exact ⟨(spec_C9 envW9).2.1, h4.1, h4.2⟩

/-- C10: when `generate_image` runs with `msg_uuid = None` (the default
of `get_gtk_widget`), any cache file it writes has the fixed name
`latest.png` in the cache directory rather than a message-keyed name, so
successive identifier-less generations compute the same cache path and
overwrite each other's cache entry. -/
theorem spec_C10 (env : GenEnv) (henv : env.msg_uuid = Option.none) :
    cacheOutPath env.cacheDir env.msg_uuid = env.cacheDir ++ "/" ++ "latest" ++ ".png" ∧
    ("latest" ++ ".png" : String) = "latest.png" ∧
    (∀ p, (generateImage env).cacheWritten = some p →
       p = env.cacheDir ++ "/" ++ "latest" ++ ".png") ∧
    (∀ env' : GenEnv, env'.msg_uuid = Option.none → env'.cacheDir = env.cacheDir →
       cacheOutPath env'.cacheDir env'.msg_uuid = cacheOutPath env.cacheDir env.msg_uuid) := by
  have hname : cacheOutPath env.cacheDir env.msg_uuid
      = env.cacheDir ++ "/" ++ "latest" ++ ".png" := by
    rw [cacheOutPath, henv]
    rfl
  refine ⟨hname, rfl, ?_, ?_⟩
  · intro p hp
    rcases generateImage_cache env with h | h
    · rw [hp] at h
      exact (Option.some.inj h).trans hname
    · rw [hp] at h
      exact Option.noConfusion h
  · intro env' h1 h2
    rw [cacheOutPath, cacheOutPath, h1, henv, h2]

def envW10 : GenEnv := mkEnv (settingsOf []) (.resp 200 "" (.ok (.dict [("image", PyVal.str "QUJD")])))

/-- Witness for C10 at a concrete environment with a single-image
response. -/
theorem spec_C10_witness :
    envW10.msg_uuid = Option.none ∧
    cacheOutPath envW10.cacheDir envW10.msg_uuid
      = "/ext/generated_images" ++ "/" ++ "latest" ++ ".png" ∧
    (generateImage envW10).cacheWritten = some "/ext/generated_images/latest.png" := by
  refine ⟨rfl, (spec_C10 envW10 rfl).1, rfl⟩
